import Mathlib

/-!
Verification of the package-planning layer of dcs-retribution.

Shallow embedding of:
  * `PackagePlanningTask.iter_iads_ranges`, `target_area_preconditions_met`,
    `preconditions_met`, `fulfill_mission`, `execute`
    (src/game/commander/tasks/packageplanningtask.py)
  * `TheaterState.clone` (src/game/commander/theaterstate.py)
  * `Package.add_flight`, `remove_flight`, `primary_task`,
    `departure_closest_to_target`, `clone_package`, `set_tot_asap`
    (src/game/ato/package.py)

Distances are embedded as rationals (the source uses float-valued `Distance`
wrappers measured in meters; the claims under study concern only comparisons,
subtraction and ordering of those quantities).  Game objects that the claims
only ever compare for identity (control points, mission targets, convoys,
pilots, transfer orders) are embedded as natural-number identifiers.
-/

/-- `GroupTask` values referenced by `corrective_factor_for_type`.  The
`game/data/groups.py` module is not part of the sources under study; only the
three members named in `packageplanningtask.py` matter to the planning code,
every other member is represented by `OTHER`. -/

inductive GroupTask where
  | LORAD
  | MERAD
  | AAA
  | OTHER
deriving DecidableEq, Repr

/-- An enemy IADS element or naval group as seen by `iter_iads_ranges`:
either an `IadsGroundObject` or a `NavalGroundObject`.  `distance` is
`target.distance_to(self.target)` in meters, i.e. the distance from the threat
to the mission target of the planning task under consideration;
`detection_range` and `threat_range` are `max_detection_range()` and
`max_threat_range()`. -/

structure IadsTarget where
  id : Nat
  distance : ℚ
  detection_range : ℚ
  threat_range : ℚ
  task : GroupTask
deriving DecidableEq, Repr

/-- The fields of `TheaterState` read and written by the package-planning
functions under study (the full field list appears in the store-based model of
`TheaterState.clone` below). -/

structure TheaterState where
  enemy_air_defenses : List IadsTarget
  enemy_ships : List IadsTarget
  threatening_air_defenses : List IadsTarget
  detecting_air_defenses : List IadsTarget
deriving Repr

namespace RangeType

/-- `RangeType.Detection` (an `IntEnum` member, `auto()` = 1). -/

def Detection : Nat := 1

/-- `RangeType.Threat` (an `IntEnum` member, `auto()` = 2). -/

def Threat : Nat := 2

end RangeType

/-- The range-type dispatch inside the loop of `iter_iads_ranges`:
`max_detection_range()` for `Detection`, `max_threat_range()` for `Threat`,
and `raise ValueError` for an unknown member (impossible for the two actual
members of the `@unique` enum). -/

def rangeForType (range_type : Nat) (t : IadsTarget) : Except String ℚ :=
  if range_type = RangeType.Detection then .ok t.detection_range
  else if range_type = RangeType.Threat then .ok t.threat_range
  else .error "Unknown RangeType"

/-- The per-target body of the loop in `iter_iads_ranges`: selects the range
for the given range type, skips targets with falsy (zero) range, computes
`distance_to_threat = distance - range` and prunes targets with positive
`distance_to_threat`. -/

def collectRanges (range_type : Nat) : List IadsTarget → Except String (List (IadsTarget × ℚ))
  | [] => .ok []
  | t :: rest =>
    match rangeForType range_type t with
    | .error e => .error e
    | .ok target_range =>
      match collectRanges range_type rest with
      | .error e => .error e
      | .ok tail =>
        if target_range = 0 then .ok tail
        else if 0 < t.distance - target_range then .ok tail
        else .ok ((t, t.distance - target_range) :: tail)

/-- Comparison used by `sorted(target_ranges, key=operator.itemgetter(1))`:
order candidate pairs by their `distance_to_threat` component. -/

def keyLe (a b : IadsTarget × ℚ) : Prop := a.2 ≤ b.2

instance : DecidableRel keyLe := fun a b => inferInstanceAs (Decidable (a.2 ≤ b.2))

instance : IsTotal (IadsTarget × ℚ) keyLe := ⟨fun a b => le_total a.2 b.2⟩

instance : IsTrans (IadsTarget × ℚ) keyLe := ⟨fun _ _ _ h h' => le_trans h h'⟩

/-- `PackagePlanningTask.iter_iads_ranges`: chains the state's
`enemy_air_defenses` and `enemy_ships`, keeps the in-range targets paired with
their `distance_to_threat`, sorts ascending by that key (Python `sorted` and
`List.insertionSort` are both stable, hence agree) and yields the targets. -/

def iter_iads_ranges (state : TheaterState) (range_type : Nat) :
    Except String (List IadsTarget) :=
  match collectRanges range_type (state.enemy_air_defenses ++ state.enemy_ships) with
  | .error e => .error e
  | .ok target_ranges => .ok (((target_ranges.insertionSort keyLe)).map Prod.fst)

/-- The pure value of the per-target loop for a known range type, selecting the
range with `sel`. -/

def pureCollect (sel : IadsTarget → ℚ) : List IadsTarget → List (IadsTarget × ℚ)
  | [] => []
  | t :: rest =>
    let tail := pureCollect sel rest
    let target_range := sel t
    if target_range = 0 then tail
    else if 0 < t.distance - target_range then tail
    else (t, t.distance - target_range) :: tail

/-- Pure form of `iter_iads_ranges` for a known range-type selector. -/

def iadsRangesBy (state : TheaterState) (sel : IadsTarget → ℚ) : List IadsTarget :=
  (((pureCollect sel (state.enemy_air_defenses ++ state.enemy_ships)).insertionSort keyLe)).map
    Prod.fst

/-- `PackagePlanningTask.iter_detecting_iads`. -/

def iter_detecting_iads (state : TheaterState) : List IadsTarget :=
  iadsRangesBy state (fun t => t.detection_range)

/-- `PackagePlanningTask.iter_iads_threats`. -/

def iter_iads_threats (state : TheaterState) : List IadsTarget :=
  iadsRangesBy state (fun t => t.threat_range)

/-- The pure selected range for a known range type (`Detection` or `Threat`):
the "maximum range" of the claim statements. -/

def rangeValue (range_type : Nat) (t : IadsTarget) : ℚ :=
  if range_type = RangeType.Detection then t.detection_range else t.threat_range

/-- The fields of `Settings` and of the planning context consulted by
`_get_weighted_threat_range`: the coalition's side and the two autoplanner
aggressiveness settings (percentages). -/

structure PlannerSettings where
  ownfor_autoplanner_aggressiveness : ℚ
  opfor_autoplanner_aggressiveness : ℚ
  player : Bool

/-- `PackagePlanningTask.corrective_factor_for_type`: `1.0` for LORAD/MERAD,
`0.5` for AAA, `0.9` otherwise. -/

def corrective_factor_for_type (target : IadsTarget) : ℚ :=
  if target.task = GroupTask.LORAD ∨ target.task = GroupTask.MERAD then 1
  else if target.task = GroupTask.AAA then 1 / 2
  else 9 / 10

/-- `PackagePlanningTask._get_weighted_threat_range`: the distance to the
threat minus its threat range scaled by the aggressiveness margin and the
corrective factor for the threat type. -/

def get_weighted_threat_range (settings : PlannerSettings) (iads_threat : IadsTarget) : ℚ :=
  let margin : ℚ := 100 -
    (if settings.player then settings.ownfor_autoplanner_aggressiveness
     else settings.opfor_autoplanner_aggressiveness)
  let threat_range := iads_threat.threat_range * (margin / 100) * corrective_factor_for_type iads_threat
  iads_threat.distance - threat_range

/-- The `if x not in xs: xs.append(x)` idiom used for the
`detecting_air_defenses` and `threatening_air_defenses` lists. -/

def appendUnique (l : List IadsTarget) (x : IadsTarget) : List IadsTarget :=
  if x ∈ l then l else l ++ [x]

/-- `PackagePlanningTask.target_area_preconditions_met`: appends the detected
IADS to `detecting_air_defenses` (non-blocking), then unless `ignore_iads`
appends each threatening IADS to `threatening_air_defenses` and reports the
area clear exactly when no threat has a negative weighted threat range. -/

def target_area_preconditions_met (settings : PlannerSettings) (state : TheaterState)
    (ignore_iads : Bool) : Bool × TheaterState :=
  let state1 := { state with
    detecting_air_defenses :=
      (iter_detecting_iads state).foldl appendUnique state.detecting_air_defenses }
  if ignore_iads then (true, state1)
  else
    let threats := iter_iads_threats state1
    let threatened := threats.any (fun t => get_weighted_threat_range settings t < 0)
    let state2 := { state1 with
      threatening_air_defenses :=
        threats.foldl appendUnique state1.threatening_air_defenses }
    (!threatened, state2)

/-- `FlightType` members.  The enum module (`game/ato/flighttype.py`) is not
among the sources under study; the constructors are the members named by the
priority list in `Package.primary_task` (src/game/ato/package.py), and
`OTHER` stands for any further member of the enum, which that list does not
handle. -/

inductive FlightType where
  | CAS
  | STRIKE
  | ANTISHIP
  | OCA_AIRCRAFT
  | OCA_RUNWAY
  | BAI
  | DEAD
  | TRANSPORT
  | AIR_ASSAULT
  | ARMED_RECON
  | SEAD
  | SEAD_SWEEP
  | TARCAP
  | BARCAP
  | AEWC
  | FERRY
  | RECOVERY
  | REFUELING
  | SWEEP
  | SEAD_ESCORT
  | ESCORT
  | OTHER
deriving DecidableEq, Repr

/-- A `Flight` as used by `Package`.  Modelled from the spec: `game/ato/flight.py`
is not among the sources; a flight is "an assignment of a squadron's aircraft
to a task (flight type) with a flight plan", owned by exactly one package.
`id` is the flight's database key, `departure` the id of its departure control
point, `pilots`/`aircraft` the resources returned on removal, `cargo` the id
of the carried transfer order if any, `transit_time` the travel time to the
target in seconds (`none` = missing flight plan) and `package` the id of the
owning package (a back-reference set by the owner). -/

structure Flight where
  id : Nat
  flight_type : FlightType
  departure : Nat
  pilots : List Nat
  aircraft : Nat
  cargo : Option Nat
  transit_time : Option Nat
  package : Option Nat
deriving DecidableEq, Repr

/-- Modelled from the spec: the flight `Database` (`game/db.py` is not among
the sources) maps flight ids to flights; `add` registers a flight under a key
and `remove` deletes the key. -/

def Db : Type := List (Nat × Flight)

/-- `Database.add`. -/

def dbAdd (db : Db) (key : Nat) (f : Flight) : Db :=
  ((key, f) :: db : List (Nat × Flight))

/-- `Database.remove`. -/

def dbRemove (db : Db) (key : Nat) : Db :=
  (db : List (Nat × Flight)).filter (fun p => p.1 ≠ key)

/-- Lookup in the flight database. -/

def dbGet (db : Db) (key : Nat) : Option Flight :=
  ((db : List (Nat × Flight)).find? (fun p => p.1 = key)).map Prod.snd

/-- A `Package` (src/game/ato/package.py): its mission target, optional custom
name, auto-ASAP flag, owned flights, time over target (seconds) and optional
`PackageWaypoints` (by identity). -/

structure Package where
  target : Nat
  custom_name : Option String
  auto_asap : Bool
  flights : List Flight
  time_over_target : Nat
  waypoints : Option Nat
deriving DecidableEq, Repr

/-- `Package.add_flight`: appends the flight to this package's flights list
and registers it in the flight database under its id. -/

def add_flight (package : Package) (db : Db) (flight : Flight) : Package × Db :=
  ({ package with flights := package.flights ++ [flight] }, dbAdd db flight.id flight)

/-- Modelled from the spec: `Flight.return_pilots_and_aircraft` (the flight
module is not among the sources) hands the flight's pilots and aircraft back
to its squadron; the embedding returns them. -/

def return_pilots_and_aircraft (flight : Flight) : List Nat × Nat :=
  (flight.pilots, flight.aircraft)

/-- `Package.remove_flight`: removes the flight from this package's flights
list (`list.remove` drops the first occurrence), removes it from the flight
database, returns its pilots and aircraft, detaches its cargo's transport if
any, and resets the package waypoints when the last flight was removed.
`transports` maps each transfer-order id to its assigned transport flight. -/

def remove_flight (package : Package) (db : Db) (transports : Nat → Option Nat)
    (flight : Flight) : Package × Db × (Nat → Option Nat) × (List Nat × Nat) :=
  let flights := package.flights.erase flight
  let db := dbRemove db flight.id
  let returned := return_pilots_and_aircraft flight
  let transports := fun c => if flight.cargo = some c then none else transports c
  let waypoints := if flights.isEmpty then none else package.waypoints
  ({ package with flights := flights, waypoints := waypoints }, db, transports, returned)

/-- Modelled from the spec: `Flight.clone_flight` (the flight module is not
among the sources) produces a copy of the flight as a fresh object; the copy
receives the fresh identity `newId`. -/

def clone_flight (flight : Flight) (newId : Nat) : Flight :=
  { flight with id := newId }

/-- `Package.clone_package`: builds a new package for the same target with the
same auto-ASAP flag and time over target, clones each flight, points each
clone's `package` reference at the new package (identified by `cloneId`) and
adds it to the new package.  `freshIds` supplies the identities of the cloned
flights. -/

def clone_package (package : Package) (db : Db) (cloneId : Nat) (freshIds : List Nat) :
    Package × Db :=
  let clone : Package :=
    { target := package.target, custom_name := none, auto_asap := package.auto_asap,
      flights := [], time_over_target := package.time_over_target, waypoints := none }
  (package.flights.zip freshIds).foldl
    (fun acc pr =>
      let cf := { clone_flight pr.1 pr.2 with package := some cloneId }
      add_flight acc.1 acc.2 cf)
    (clone, db)

/-- The priority order of `Package.primary_task`. -/

def tasks_by_priority : List FlightType :=
  [FlightType.CAS, FlightType.STRIKE, FlightType.ANTISHIP, FlightType.OCA_AIRCRAFT,
   FlightType.OCA_RUNWAY, FlightType.BAI, FlightType.DEAD, FlightType.TRANSPORT,
   FlightType.AIR_ASSAULT, FlightType.ARMED_RECON, FlightType.SEAD, FlightType.SEAD_SWEEP,
   FlightType.TARCAP, FlightType.BARCAP, FlightType.AEWC, FlightType.FERRY,
   FlightType.RECOVERY, FlightType.REFUELING, FlightType.SWEEP, FlightType.SEAD_ESCORT,
   FlightType.ESCORT]

/-- `Package.primary_task`: `None` for an empty package; otherwise the first
type in the priority list some flight of which is in the package, falling back
to the type of the package's first flight. -/

def primary_task (package : Package) : Option FlightType :=
  match package.flights with
  | [] => none
  | f :: _ =>
    some ((tasks_by_priority.find?
        (fun task => package.flights.any (fun g => g.flight_type = task))).getD
      f.flight_type)

/-- `Package.departure_closest_to_target`: raises for a package with no
flights; otherwise walks the operational airfields of the objective distance
cache in order and returns the first one that is the departure airfield of
some flight in the package, raising when none is.  `operational_airfields`
stands for `ObjectiveDistanceCache.get_closest_airfields(target).operational_airfields`
(the cache module is not among the sources), which the claim characterises by
the hypothesis that it is ordered by increasing distance to the target. -/

def departure_closest_to_target (operational_airfields : List Nat) (package : Package) :
    Except String Nat :=
  if package.flights.isEmpty then
    .error "Cannot determine source airfield for package with no flights"
  else
    match operational_airfields.find?
        (fun airfield => package.flights.any (fun f => f.departure = airfield)) with
    | some airfield => .ok airfield
    | none => .error "Could not find any airfield assigned to this package"

/-- Modelled from the spec: `TotEstimator.earliest_tot` (`game/ato/traveltime.py`
is not among the sources) returns the earliest feasible time over target,
"computed from slowest flight's transit time plus a fixed buffer", where a
flight with a missing flight plan is "treated as already-arrived" (zero
transit time).  `buffer` is the fixed buffer in seconds. -/

def earliest_tot (buffer : Nat) (package : Package) (now : Nat) : Nat :=
  now + buffer + (package.flights.map (fun f => f.transit_time.getD 0)).foldr max 0

/-- `Package.set_tot_asap`: sets the package's time over target to
`TotEstimator(self).earliest_tot(now)`. -/

def set_tot_asap (buffer : Nat) (package : Package) (now : Nat) : Package :=
  { package with time_over_target := earliest_tot buffer package now }

/-- The planning-context bits read by `PackagePlanningTask.preconditions_met`:
whether the coalition is the player's, and whether the player's auto-ATO
behavior setting is `AutoAtoBehavior.Disabled`. -/

structure PlanningContext where
  player : Bool
  auto_ato_disabled : Bool

/-- The mutable fields of `PackagePlanningTask`: the proposed flights
(accumulated by `propose_flights`) and the planned package, `None` until and
unless `fulfill_mission` succeeds (the dataclass initialises it to `None`).
The proposed flights are represented by their flight types. -/

structure PackagePlanningTask where
  flights : List FlightType
  package : Option Package

/-- `PackagePlanningTask.fulfill_mission`: runs `propose_flights` (which
appends the subclass's proposals to `self.flights`), asks the
`PackageFulfiller` to plan the mission, stores the result — a `Package` or
`None` — in `self.package` and reports whether a package was planned.
`plan_mission_result` stands for the value returned by
`PackageFulfiller.plan_mission` (`game/commander/packagefulfiller.py` is not
among the sources). -/

def fulfill_mission (task : PackagePlanningTask) (proposed : List FlightType)
    (plan_mission_result : Option Package) : PackagePlanningTask × Bool :=
  let task := { task with flights := task.flights ++ proposed }
  let task := { task with package := plan_mission_result }
  (task, task.package.isSome)

/-- `PackagePlanningTask.preconditions_met`: `False` without planning when the
player coalition has auto-ATO disabled, otherwise the result of
`fulfill_mission`. -/

def preconditions_met (ctx : PlanningContext) (task : PackagePlanningTask)
    (proposed : List FlightType) (plan_mission_result : Option Package) :
    PackagePlanningTask × Bool :=
  if ctx.player ∧ ctx.auto_ato_disabled then (task, false)
  else fulfill_mission task proposed plan_mission_result

/-- `PackagePlanningTask.execute`: raises `RuntimeError` when the planning
failed (`self.package is None`), otherwise adds the package to the coalition's
ATO (`AirTaskingOrder.add_package` appends it; the ATO module is not among the
sources and is embedded as the list of its packages). -/

def executeTask (task : PackagePlanningTask) (ato : List Package) :
    Except String (List Package) :=
  match task.package with
  | none => .error "Attempted to execute failed package planning task"
  | some p => .ok (ato ++ [p])

/-- A package owns a flight (identified by its id) when the flight appears in
the package's flights list. -/

def owns (package : Package) (fid : Nat) : Prop :=
  ∃ g ∈ package.flights, g.id = fid

/-- Each flight belongs to at most one of the packages of the world `w`: two
packages of `w` owning the same flight id are the same list position. -/

def UniqueOwnership (w : List Package) : Prop :=
  ∀ (fid i j : Nat) (p q : Package),
    w[i]? = some p → w[j]? = some q → owns p fid → owns q fid → i = j

/-- `add_flight` invoked on the package at position `i` of the world. -/

def world_add_flight (w : List Package) (i : Nat) (db : Db) (flight : Flight) :
    List Package × Db :=
  match w[i]? with
  | none => (w, db)
  | some p => ((w.set i (add_flight p db flight).1), (add_flight p db flight).2)

/-- `remove_flight` invoked on the package at position `i` of the world. -/

def world_remove_flight (w : List Package) (i : Nat) (db : Db)
    (transports : Nat → Option Nat) (flight : Flight) : List Package × Db :=
  match w[i]? with
  | none => (w, db)
  | some p =>
    ((w.set i (remove_flight p db transports flight).1),
      (remove_flight p db transports flight).2.1)

/-- A heap of collection objects for the reference-based model of
`TheaterState.clone`: Python list and dict objects are identified by
references (`Nat`), mapped to their current contents.  List elements and dict
keys/values are the identities of the game objects they hold (control points,
front lines, ground objects, mission targets...), which `clone` never copies.
`next` is the next fresh reference. -/

structure Store where
  lists : Nat → List Nat
  dicts : Nat → List (Nat × Nat)
  next : Nat

/-- Allocate a fresh list object holding `v` (the `list(...)` copies in
`TheaterState.clone`). -/

def allocList (s : Store) (v : List Nat) : Nat × Store :=
  (s.next,
    { s with lists := fun r => if r = s.next then v else s.lists r, next := s.next + 1 })

/-- Allocate a fresh dict object holding `v` (the `dict(...)` and
dict-comprehension copies in `TheaterState.clone`). -/

def allocDict (s : Store) (v : List (Nat × Nat)) : Nat × Store :=
  (s.next,
    { s with dicts := fun r => if r = s.next then v else s.dicts r, next := s.next + 1 })

/-- Mutate the list object behind reference `r` (adding or removing elements
replaces its contents by `v`). -/

def setList (s : Store) (r : Nat) (v : List Nat) : Store :=
  { s with lists := fun x => if x = r then v else s.lists x }

/-- Mutate the dict object behind reference `r`. -/

def setDict (s : Store) (r : Nat) (v : List (Nat × Nat)) : Store :=
  { s with dicts := fun x => if x = r then v else s.dicts x }

/-- The full field list of `TheaterState`
(src/game/commander/theaterstate.py), with every mutable collection held by
reference into a `Store`.  `context` (the frozen `PersistentContext`),
`threat_zones` and `priority_cp` are plain values.  `enemy_battle_positions`
is a dict from control points to `BattlePositions` identities (its values are
shallow-copied by `dataclasses.replace` in `clone`, leaving them equal). -/

structure TheaterStateR where
  context : Nat
  barcaps_needed : Nat
  active_front_lines : Nat
  front_line_stances : Nat
  vulnerable_front_lines : Nat
  aewc_targets : Nat
  refueling_targets : Nat
  recovery_targets : Nat
  enemy_air_defenses : Nat
  threatening_air_defenses : Nat
  detecting_air_defenses : Nat
  enemy_convoys : Nat
  enemy_shipping : Nat
  enemy_ships : Nat
  enemy_battle_positions : Nat
  oca_targets : Nat
  strike_targets : Nat
  enemy_barcaps : Nat
  threat_zones : Nat
  vulnerable_control_points : Nat
  control_point_priority_queue : Nat
  priority_cp : Option Nat

/-- `TheaterState.clone`: a shallow copy.  Each per-pass collection is copied
into a fresh object (`dict(...)`, `list(...)`, or the `dataclasses.replace`
dict comprehension for `enemy_battle_positions`), in the order of the
constructor call; `context`, `threat_zones` and `priority_cp` are copied by
value; the persistent collections (`threatening_air_defenses`,
`detecting_air_defenses`, `vulnerable_control_points`,
`control_point_priority_queue`) are shared with the original, not copied.
`cs1` .. `cs15` are the successive stores after each of the fifteen
collection copies, in the order of the constructor call; `clone` itself
assembles the resulting state. -/

def cs1 (ts : TheaterStateR) (s : Store) : Store :=
  (allocDict s (s.dicts ts.barcaps_needed)).2

def cs2 (ts : TheaterStateR) (s : Store) : Store :=
  (allocList (cs1 ts s) ((cs1 ts s).lists ts.active_front_lines)).2

def cs3 (ts : TheaterStateR) (s : Store) : Store :=
  (allocDict (cs2 ts s) ((cs2 ts s).dicts ts.front_line_stances)).2

def cs4 (ts : TheaterStateR) (s : Store) : Store :=
  (allocList (cs3 ts s) ((cs3 ts s).lists ts.vulnerable_front_lines)).2

def cs5 (ts : TheaterStateR) (s : Store) : Store :=
  (allocList (cs4 ts s) ((cs4 ts s).lists ts.aewc_targets)).2

def cs6 (ts : TheaterStateR) (s : Store) : Store :=
  (allocList (cs5 ts s) ((cs5 ts s).lists ts.refueling_targets)).2

def cs7 (ts : TheaterStateR) (s : Store) : Store :=
  (allocDict (cs6 ts s) ((cs6 ts s).dicts ts.recovery_targets)).2

def cs8 (ts : TheaterStateR) (s : Store) : Store :=
  (allocList (cs7 ts s) ((cs7 ts s).lists ts.enemy_air_defenses)).2

def cs9 (ts : TheaterStateR) (s : Store) : Store :=
  (allocList (cs8 ts s) ((cs8 ts s).lists ts.enemy_convoys)).2

def cs10 (ts : TheaterStateR) (s : Store) : Store :=
  (allocList (cs9 ts s) ((cs9 ts s).lists ts.enemy_shipping)).2

def cs11 (ts : TheaterStateR) (s : Store) : Store :=
  (allocList (cs10 ts s) ((cs10 ts s).lists ts.enemy_ships)).2

def cs12 (ts : TheaterStateR) (s : Store) : Store :=
  (allocDict (cs11 ts s) ((cs11 ts s).dicts ts.enemy_battle_positions)).2

def cs13 (ts : TheaterStateR) (s : Store) : Store :=
  (allocList (cs12 ts s) ((cs12 ts s).lists ts.oca_targets)).2

def cs14 (ts : TheaterStateR) (s : Store) : Store :=
  (allocList (cs13 ts s) ((cs13 ts s).lists ts.strike_targets)).2

def cs15 (ts : TheaterStateR) (s : Store) : Store :=
  (allocList (cs14 ts s) ((cs14 ts s).lists ts.enemy_barcaps)).2

/-- The result of `TheaterState.clone`: the fresh references produced by the
fifteen copies (in allocation order) for the copied collections, the original
references for the shared persistent collections, and the plain values copied
over. -/

def TheaterStateR.clone (ts : TheaterStateR) (s : Store) : TheaterStateR × Store :=
  (⟨ts.context,
      s.next, (cs1 ts s).next, (cs2 ts s).next, (cs3 ts s).next, (cs4 ts s).next,
      (cs5 ts s).next, (cs6 ts s).next, (cs7 ts s).next,
      ts.threatening_air_defenses, ts.detecting_air_defenses,
      (cs8 ts s).next, (cs9 ts s).next, (cs10 ts s).next, (cs11 ts s).next,
      (cs12 ts s).next, (cs13 ts s).next, (cs14 ts s).next,
      ts.threat_zones, ts.vulnerable_control_points,
      ts.control_point_priority_queue, ts.priority_cp⟩,
    cs15 ts s)

/-- Well-formedness of a theater state against a store: every collection
reference the clone copies is a live (previously allocated) reference. -/

def wfTheaterStore (ts : TheaterStateR) (s : Store) : Prop :=
  ts.barcaps_needed < s.next ∧ ts.active_front_lines < s.next ∧
    ts.front_line_stances < s.next ∧ ts.vulnerable_front_lines < s.next ∧
    ts.aewc_targets < s.next ∧ ts.refueling_targets < s.next ∧
    ts.recovery_targets < s.next ∧ ts.enemy_air_defenses < s.next ∧
    ts.enemy_convoys < s.next ∧ ts.enemy_shipping < s.next ∧
    ts.enemy_ships < s.next ∧ ts.enemy_battle_positions < s.next ∧
    ts.oca_targets < s.next ∧ ts.strike_targets < s.next ∧
    ts.enemy_barcaps < s.next

theorem rangeForType_detection (t : IadsTarget) :
    rangeForType RangeType.Detection t = .ok t.detection_range := rfl

theorem rangeForType_threat (t : IadsTarget) :
    rangeForType RangeType.Threat t = .ok t.threat_range := rfl

theorem collectRanges_detection (l : List IadsTarget) :
    collectRanges RangeType.Detection l = .ok (pureCollect (fun t => t.detection_range) l) := by
  induction l with
  | nil => rfl
  | cons t rest ih =>
    simp only [collectRanges, rangeForType_detection, ih, pureCollect]
    split_ifs <;> rfl

theorem collectRanges_threat (l : List IadsTarget) :
    collectRanges RangeType.Threat l = .ok (pureCollect (fun t => t.threat_range) l) := by
  induction l with
  | nil => rfl
  | cons t rest ih =>
    simp only [collectRanges, rangeForType_threat, ih, pureCollect]
    split_ifs <;> rfl

theorem iter_iads_ranges_detection (state : TheaterState) :
    iter_iads_ranges state RangeType.Detection = .ok (iter_detecting_iads state) := by
  simp [iter_iads_ranges, iter_detecting_iads, iadsRangesBy, collectRanges_detection]

theorem iter_iads_ranges_threat (state : TheaterState) :
    iter_iads_ranges state RangeType.Threat = .ok (iter_iads_threats state) := by
  simp [iter_iads_ranges, iter_iads_threats, iadsRangesBy, collectRanges_threat]

/-- Every pair produced by `pureCollect` records its own `distance_to_threat`
(with the selected range non-zero) and that value is non-positive. -/
theorem pureCollect_mem {sel : IadsTarget → ℚ} {l : List IadsTarget}
    {p : IadsTarget × ℚ} (h : p ∈ pureCollect sel l) :
    p.2 = p.1.distance - sel p.1 ∧ p.2 ≤ 0 := by
  induction l with
  | nil => simp [pureCollect] at h
  | cons t rest ih =>
    simp only [pureCollect] at h
    by_cases h0 : sel t = 0
    · simp [h0] at h
      exact ih h
    · simp only [if_neg h0] at h
      by_cases h1 : 0 < t.distance - sel t
      · simp [h1] at h
        exact ih h
      · simp [h1] at h
        rcases h with h | h
        · subst h
          exact ⟨rfl, le_of_not_lt h1⟩
        · exact ih h

theorem pairwise_upgrade {α : Type} {R S : α → α → Prop} :
    ∀ {l : List α}, (∀ a ∈ l, ∀ b ∈ l, R a b → S a b) → l.Pairwise R → l.Pairwise S :=
  fun himp h => List.Pairwise.imp_of_mem (fun ha hb hr => himp _ ha _ hb hr) h

/-- Every element yielded by `iadsRangesBy` is in range (non-positive
`distance_to_threat`) and the list is ordered by `distance_to_threat`
ascending. -/
theorem iadsRangesBy_spec (state : TheaterState) (sel : IadsTarget → ℚ) :
    (∀ t ∈ iadsRangesBy state sel, t.distance - sel t ≤ 0) ∧
      (iadsRangesBy state sel).Pairwise
        (fun a b => a.distance - sel a ≤ b.distance - sel b) := by
  unfold iadsRangesBy
  set c := pureCollect sel (state.enemy_air_defenses ++ state.enemy_ships) with hc
  have hmem : ∀ p ∈ c.insertionSort keyLe, p.2 = p.1.distance - sel p.1 ∧ p.2 ≤ 0 := by
    intro p hp
    exact pureCollect_mem ((List.mem_insertionSort keyLe).mp hp)
  constructor
  · intro t ht
    rcases List.mem_map.mp ht with ⟨p, hp, hfst⟩
    rcases hmem p hp with ⟨hsnd, hle⟩
    rw [← hfst, ← hsnd]
    exact hle
  · rw [List.pairwise_map]
    have hs : (c.insertionSort keyLe).Pairwise keyLe :=
      List.sorted_insertionSort keyLe c
    refine pairwise_upgrade (fun a ha b hb hr => ?_) hs
    rcases hmem a ha with ⟨hsa, _⟩
    rcases hmem b hb with ⟨hsb, _⟩
    rw [← hsa, ← hsb]
    exact hr

/-- Witness for C1: a concrete state with one in-range and one out-of-range
air defense. -/
theorem iter_iads_ranges_pruned_and_sorted (state : TheaterState) (range_type : Nat)
    (h : range_type = RangeType.Detection ∨ range_type = RangeType.Threat) :
    ∃ l, iter_iads_ranges state range_type = .ok l ∧
      (∀ t ∈ l, t.distance - rangeValue range_type t ≤ 0) ∧
      l.Pairwise (fun a b =>
        a.distance - rangeValue range_type a ≤ b.distance - rangeValue range_type b) := by
  rcases h with h | h
  · subst h
    refine ⟨iter_detecting_iads state, iter_iads_ranges_detection state, ?_⟩
    have := iadsRangesBy_spec state (fun t => t.detection_range)
    simpa [iter_detecting_iads, rangeValue] using this
  · subst h
    refine ⟨iter_iads_threats state, iter_iads_ranges_threat state, ?_⟩
    have := iadsRangesBy_spec state (fun t => t.threat_range)
    simpa [iter_iads_threats, rangeValue, RangeType.Threat, RangeType.Detection] using this

/-- Witness for C10: two airfields sorted by distance; the package's only
flight departs from the farther one. -/
theorem iter_iads_ranges_pruned_and_sorted_witness :
    (RangeType.Threat = RangeType.Detection ∨ RangeType.Threat = RangeType.Threat) ∧
      ∃ l,
        iter_iads_ranges
            ⟨[⟨0, 5, 0, 20, GroupTask.LORAD⟩, ⟨1, 50, 0, 20, GroupTask.AAA⟩], [], [], []⟩
            RangeType.Threat = .ok l ∧
          (∀ t ∈ l, t.distance - rangeValue RangeType.Threat t ≤ 0) ∧
          l.Pairwise (fun a b =>
            a.distance - rangeValue RangeType.Threat a ≤
              b.distance - rangeValue RangeType.Threat b) :=
  ⟨Or.inr rfl,
    iter_iads_ranges_pruned_and_sorted
      ⟨[⟨0, 5, 0, 20, GroupTask.LORAD⟩, ⟨1, 50, 0, 20, GroupTask.AAA⟩], [], [], []⟩
      RangeType.Threat (Or.inr rfl)⟩

/-- Witness for C7: both range types evaluated on the empty theater state. -/
theorem iter_iads_ranges_no_failure (state : TheaterState) (range_type : Nat)
    (hk : range_type = RangeType.Detection ∨ range_type = RangeType.Threat) :
    (∃ l, iter_iads_ranges state range_type = .ok l) ∧
      (state.enemy_air_defenses = [] → state.enemy_ships = [] →
        iter_iads_ranges state range_type = .ok []) := by
  rcases hk with h | h <;> subst h
  · refine ⟨⟨iter_detecting_iads state, iter_iads_ranges_detection state⟩, ?_⟩
    intro h1 h2
    rw [iter_iads_ranges_detection]
    simp [iter_detecting_iads, iadsRangesBy, h1, h2, pureCollect]
  · refine ⟨⟨iter_iads_threats state, iter_iads_ranges_threat state⟩, ?_⟩
    intro h1 h2
    rw [iter_iads_ranges_threat]
    simp [iter_iads_threats, iadsRangesBy, h1, h2, pureCollect]

theorem iter_iads_ranges_no_failure_witness :
    ((RangeType.Detection = RangeType.Detection ∨ RangeType.Detection = RangeType.Threat) ∧
        (∃ l, iter_iads_ranges ⟨[], [], [], []⟩ RangeType.Detection = .ok l) ∧
          (([] : List IadsTarget) = [] → ([] : List IadsTarget) = [] →
            iter_iads_ranges ⟨[], [], [], []⟩ RangeType.Detection = .ok [])) ∧
      ((RangeType.Threat = RangeType.Detection ∨ RangeType.Threat = RangeType.Threat) ∧
        (∃ l, iter_iads_ranges ⟨[], [], [], []⟩ RangeType.Threat = .ok l) ∧
          (([] : List IadsTarget) = [] → ([] : List IadsTarget) = [] →
            iter_iads_ranges ⟨[], [], [], []⟩ RangeType.Threat = .ok [])) :=
  ⟨⟨Or.inl rfl, iter_iads_ranges_no_failure ⟨[], [], [], []⟩ RangeType.Detection (Or.inl rfl)⟩,
    ⟨Or.inr rfl, iter_iads_ranges_no_failure ⟨[], [], [], []⟩ RangeType.Threat (Or.inr rfl)⟩⟩

theorem appendUnique_nodup {l : List IadsTarget} {x : IadsTarget} (h : l.Nodup) :
    (appendUnique l x).Nodup := by
  unfold appendUnique
  split_ifs with hx
  · exact h
  · simpa [List.nodup_append, hx] using h

theorem foldl_appendUnique_nodup (xs : List IadsTarget) :
    ∀ {l : List IadsTarget}, l.Nodup → (xs.foldl appendUnique l).Nodup := by
  induction xs with
  | nil => intro l h; simpa using h
  | cons x rest ih =>
    intro l h
    simpa [List.foldl_cons] using ih (appendUnique_nodup h)

/-- Witness for C4: a state whose detector is already recorded once; both
lists stay duplicate-free. -/
theorem target_area_preconditions_met_nodup (settings : PlannerSettings)
    (state : TheaterState) (ignore_iads : Bool)
    (hthreat : state.threatening_air_defenses.Nodup)
    (hdetect : state.detecting_air_defenses.Nodup) :
    (target_area_preconditions_met settings state ignore_iads).2.threatening_air_defenses.Nodup ∧
      (target_area_preconditions_met settings state ignore_iads).2.detecting_air_defenses.Nodup := by
  unfold target_area_preconditions_met
  split_ifs with hig
  · exact ⟨hthreat, foldl_appendUnique_nodup _ hdetect⟩
  · exact ⟨foldl_appendUnique_nodup _ hthreat, foldl_appendUnique_nodup _ hdetect⟩

theorem target_area_preconditions_met_nodup_witness :
    ([⟨0, 5, 20, 20, GroupTask.LORAD⟩] : List IadsTarget).Nodup ∧
      (target_area_preconditions_met ⟨50, 50, true⟩
            ⟨[⟨0, 5, 20, 20, GroupTask.LORAD⟩], [], [⟨0, 5, 20, 20, GroupTask.LORAD⟩], []⟩
            false).2.threatening_air_defenses.Nodup ∧
      (target_area_preconditions_met ⟨50, 50, true⟩
            ⟨[⟨0, 5, 20, 20, GroupTask.LORAD⟩], [], [⟨0, 5, 20, 20, GroupTask.LORAD⟩], []⟩
            false).2.detecting_air_defenses.Nodup :=
  ⟨by decide,
    target_area_preconditions_met_nodup ⟨50, 50, true⟩
      ⟨[⟨0, 5, 20, 20, GroupTask.LORAD⟩], [], [⟨0, 5, 20, 20, GroupTask.LORAD⟩], []⟩
      false (by decide) (by decide)⟩

theorem world_add_flight_frame (w : List Package) (i : Nat) (db : Db) (flight : Flight)
    (j : Nat) (hj : j ≠ i) : (world_add_flight w i db flight).1[j]? = w[j]? := by
  unfold world_add_flight
  match hw : w[i]? with
  | none => rfl
  | some p =>
    exact List.getElem?_set_ne (fun h => hj h.symm)

theorem world_remove_flight_frame (w : List Package) (i : Nat) (db : Db)
    (transports : Nat → Option Nat) (flight : Flight) (j : Nat) (hj : j ≠ i) :
    (world_remove_flight w i db transports flight).1[j]? = w[j]? := by
  unfold world_remove_flight
  match hw : w[i]? with
  | none => rfl
  | some p =>
    exact List.getElem?_set_ne (fun h => hj h.symm)

theorem getElem?_set_self_of_some {α : Type} {l : List α} {i : Nat} {p : α}
    (h : l[i]? = some p) (a : α) : (l.set i a)[i]? = some a := by
  have hi : i < l.length := by
    by_contra hlt
    rw [List.getElem?_eq_none (le_of_not_lt hlt)] at h
    exact Option.noConfusion h
  rw [List.getElem?_set_self']
  simp [List.getElem?_eq_getElem hi]

theorem unique_ownership_add {w : List Package} {i : Nat} {db : Db} {flight : Flight}
    (hu : UniqueOwnership w)
    (hfresh : ∀ (k : Nat) (p : Package), w[k]? = some p → ¬ owns p flight.id) :
    UniqueOwnership (world_add_flight w i db flight).1 := by
  intro fid j k q r hq hr oq orr
  unfold world_add_flight at hq hr
  cases hw : w[i]? with
  | none =>
    rw [hw] at hq hr
    exact hu fid j k q r hq hr oq orr
  | some p =>
    rw [hw] at hq hr
    simp only at hq hr
    have key : ∀ (m : Nat) (s : Package),
        ((w.set i (add_flight p db flight).1)[m]? = some s) → owns s fid →
        (w[m]? = some s ∧ owns s fid) ∨ (m = i ∧ (owns p fid ∨ fid = flight.id)) := by
      intro m s hm os
      by_cases hmi : m = i
      · subst hmi
        right
        refine ⟨rfl, ?_⟩
        rw [getElem?_set_self_of_some hw] at hm
        cases hm
        rcases os with ⟨g, hg, hgid⟩
        simp only [add_flight, List.mem_append, List.mem_singleton] at hg
        rcases hg with hg | hg
        · exact Or.inl ⟨g, hg, hgid⟩
        · subst hg
          exact Or.inr hgid.symm
      · left
        rw [List.getElem?_set_ne (fun h => hmi h.symm)] at hm
        exact ⟨hm, os⟩
    rcases key j q hq oq with ⟨hjq, ojq⟩ | ⟨hji, hcase⟩ <;>
      rcases key k r hr orr with ⟨hkr, okr⟩ | ⟨hki, hcase2⟩
    · exact hu fid j k q r hjq hkr ojq okr
    · subst hki
      rcases hcase2 with hp | hfid
      · exact hu fid j k q p hjq hw ojq hp
      · subst hfid
        exact absurd ojq (hfresh j q hjq)
    · subst hji
      rcases hcase with hp | hfid
      · exact hu fid j k p r hw hkr hp okr
      · subst hfid
        exact absurd okr (hfresh k r hkr)
    · rw [hji, hki]

theorem unique_ownership_remove {w : List Package} {i : Nat} {db : Db}
    {transports : Nat → Option Nat} {flight : Flight} (hu : UniqueOwnership w) :
    UniqueOwnership (world_remove_flight w i db transports flight).1 := by
  intro fid j k q r hq hr oq orr
  unfold world_remove_flight at hq hr
  cases hw : w[i]? with
  | none =>
    rw [hw] at hq hr
    exact hu fid j k q r hq hr oq orr
  | some p =>
    rw [hw] at hq hr
    simp only at hq hr
    have key : ∀ (m : Nat) (s : Package),
        ((w.set i (remove_flight p db transports flight).1)[m]? = some s) →
        owns s fid → ∃ u, w[m]? = some u ∧ owns u fid := by
      intro m s hm os
      by_cases hmi : m = i
      · subst hmi
        rw [getElem?_set_self_of_some hw] at hm
        cases hm
        rcases os with ⟨g, hg, hgid⟩
        simp only [remove_flight] at hg
        exact ⟨p, hw, g, List.mem_of_mem_erase hg, hgid⟩
      · rw [List.getElem?_set_ne (fun h => hmi h.symm)] at hm
        exact ⟨s, hm, os⟩
    rcases key j q hq oq with ⟨u, hju, oju⟩
    rcases key k r hr orr with ⟨v, hkv, okv⟩
    exact hu fid j k u v hju hkv oju okv

theorem foldl_add_flight_flights (cloneId : Nat) (l : List (Flight × Nat)) :
    ∀ (q : Package) (db : Db),
      ((l.foldl (fun acc pr =>
          let cf := { clone_flight pr.1 pr.2 with package := some cloneId }
          add_flight acc.1 acc.2 cf) (q, db)).1).flights =
        q.flights ++ l.map (fun pr => { clone_flight pr.1 pr.2 with package := some cloneId }) := by
  induction l with
  | nil => intro q db; simp
  | cons pr rest ih =>
    intro q db
    simp only [List.foldl_cons, List.map_cons]
    rw [ih]
    simp [add_flight]

theorem clone_package_flights (package : Package) (db : Db) (cloneId : Nat)
    (freshIds : List Nat) :
    (clone_package package db cloneId freshIds).1.flights =
      (package.flights.zip freshIds).map
        (fun pr => { clone_flight pr.1 pr.2 with package := some cloneId }) := by
  unfold clone_package
  rw [foldl_add_flight_flights]
  simp

theorem clone_package_ids (package : Package) (db : Db) (cloneId : Nat)
    (freshIds : List Nat) {g : Flight}
    (hg : g ∈ (clone_package package db cloneId freshIds).1.flights) : g.id ∈ freshIds := by
  rw [clone_package_flights] at hg
  rcases List.mem_map.mp hg with ⟨pr, hpr, heq⟩
  have : g.id = pr.2 := by rw [← heq]; rfl
  rw [this]
  exact (List.of_mem_zip hpr).2

theorem unique_ownership_clone {w : List Package} {package : Package} {db : Db}
    {cloneId : Nat} {freshIds : List Nat} (hu : UniqueOwnership w)
    (hfresh : ∀ (k : Nat) (p : Package), w[k]? = some p → ∀ fid ∈ freshIds, ¬ owns p fid) :
    UniqueOwnership (w ++ [(clone_package package db cloneId freshIds).1]) := by
  intro fid j k q r hq hr oq orr
  have key : ∀ (m : Nat) (s : Package),
      ((w ++ [(clone_package package db cloneId freshIds).1])[m]? = some s) → owns s fid →
      (w[m]? = some s) ∨ (m = w.length ∧ fid ∈ freshIds) := by
    intro m s hm os
    by_cases hmw : m < w.length
    · left
      rw [List.getElem?_append] at hm
      simpa [hmw] using hm
    · right
      rw [List.getElem?_append] at hm
      simp only [hmw, if_neg, if_false] at hm
      have hms : m - w.length = 0 := by
        by_contra hne
        rw [List.getElem?_eq_none] at hm
        · exact Option.noConfusion hm
        · simpa using Nat.one_le_iff_ne_zero.mpr hne
      refine ⟨by omega, ?_⟩
      rw [hms] at hm
      simp only [List.getElem?_cons_zero] at hm
      cases hm
      rcases os with ⟨g, hg, hgid⟩
      rw [← hgid]
      exact clone_package_ids package db cloneId freshIds hg
  rcases key j q hq oq with hjw | ⟨hj, hfid⟩ <;> rcases key k r hr orr with hkw | ⟨hk, hfid2⟩
  · exact hu fid j k q r hjw hkw oq orr
  · exact absurd oq (hfresh j q hjw fid hfid2)
  · exact absurd orr (hfresh k r hkw fid hfid)
  · rw [hj, hk]

/-- Witness for C5: an empty world, a one-flight package and a fresh flight. -/
theorem package_flight_unique_ownership (package : Package) (db : Db) (flight : Flight)
    (w : List Package) (i : Nat) (transports : Nat → Option Nat) (cloneId : Nat)
    (freshIds : List Nat) (hu : UniqueOwnership w)
    (hfa : ∀ (k : Nat) (p : Package), w[k]? = some p → ¬ owns p flight.id)
    (hfc : ∀ (k : Nat) (p : Package), w[k]? = some p → ∀ fid ∈ freshIds, ¬ owns p fid) :
    ((add_flight package db flight).1.flights = package.flights ++ [flight] ∧
        dbGet (add_flight package db flight).2 flight.id = some flight) ∧
      (∀ j : Nat, j ≠ i → (world_add_flight w i db flight).1[j]? = w[j]?) ∧
      ((remove_flight package db transports flight).1.flights = package.flights.erase flight ∧
        ∀ j : Nat, j ≠ i → (world_remove_flight w i db transports flight).1[j]? = w[j]?) ∧
      (∀ g ∈ (clone_package package db cloneId freshIds).1.flights,
        g.package = some cloneId) ∧
      UniqueOwnership (world_add_flight w i db flight).1 ∧
      UniqueOwnership (world_remove_flight w i db transports flight).1 ∧
      UniqueOwnership (w ++ [(clone_package package db cloneId freshIds).1]) := by
  refine ⟨⟨rfl, by simp [dbGet, dbAdd, add_flight]⟩,
    fun j hj => world_add_flight_frame w i db flight j hj,
    ⟨rfl, fun j hj => world_remove_flight_frame w i db transports flight j hj⟩,
    ?_, unique_ownership_add hu hfa, unique_ownership_remove hu,
    unique_ownership_clone hu hfc⟩
  intro g hg
  rw [clone_package_flights] at hg
  rcases List.mem_map.mp hg with ⟨pr, _, heq⟩
  rw [← heq]

theorem package_flight_unique_ownership_witness :
    UniqueOwnership ([] : List Package) ∧
      ((add_flight ⟨7, none, false, [], 0, none⟩ []
            ⟨3, FlightType.CAS, 1, [11], 2, none, some 600, none⟩).1.flights =
          [] ++ [⟨3, FlightType.CAS, 1, [11], 2, none, some 600, none⟩] ∧
        dbGet (add_flight ⟨7, none, false, [], 0, none⟩ []
            ⟨3, FlightType.CAS, 1, [11], 2, none, some 600, none⟩).2 3 =
          some ⟨3, FlightType.CAS, 1, [11], 2, none, some 600, none⟩) ∧
      (∀ j : Nat, j ≠ 0 →
        (world_add_flight [] 0 []
            ⟨3, FlightType.CAS, 1, [11], 2, none, some 600, none⟩).1[j]? =
          ([] : List Package)[j]?) ∧
      ((remove_flight ⟨7, none, false, [], 0, none⟩ [] (fun _ => none)
            ⟨3, FlightType.CAS, 1, [11], 2, none, some 600, none⟩).1.flights =
          List.erase [] ⟨3, FlightType.CAS, 1, [11], 2, none, some 600, none⟩ ∧
        ∀ j : Nat, j ≠ 0 →
          (world_remove_flight [] 0 [] (fun _ => none)
              ⟨3, FlightType.CAS, 1, [11], 2, none, some 600, none⟩).1[j]? =
            ([] : List Package)[j]?) ∧
      (∀ g ∈ (clone_package ⟨7, none, false, [], 0, none⟩ [] 9 [5]).1.flights,
        g.package = some 9) ∧
      UniqueOwnership (world_add_flight [] 0 []
        ⟨3, FlightType.CAS, 1, [11], 2, none, some 600, none⟩).1 ∧
      UniqueOwnership (world_remove_flight [] 0 [] (fun _ => none)
        ⟨3, FlightType.CAS, 1, [11], 2, none, some 600, none⟩).1 ∧
      UniqueOwnership ([] ++ [(clone_package ⟨7, none, false, [], 0, none⟩ [] 9 [5]).1]) :=
  ⟨fun fid i j p q hi _ _ _ => by simp at hi,
    package_flight_unique_ownership ⟨7, none, false, [], 0, none⟩ []
      ⟨3, FlightType.CAS, 1, [11], 2, none, some 600, none⟩ [] 0 (fun _ => none) 9 [5]
      (fun fid i j p q hi _ _ _ => by simp at hi)
      (fun k p hk => by simp at hk)
      (fun k p hk => by simp at hk)⟩

/-- Witness for C6: removing the cargo-carrying first flight of a two-flight
package. -/
theorem remove_flight_spec (package : Package) (db : Db) (transports : Nat → Option Nat)
    (flight : Flight) (hmem : flight ∈ package.flights) (hnd : package.flights.Nodup) :
    (remove_flight package db transports flight).1.flights = package.flights.erase flight ∧
      (remove_flight package db transports flight).1.flights.count flight =
        package.flights.count flight - 1 ∧
      (∀ g : Flight, g ≠ flight →
        (remove_flight package db transports flight).1.flights.count g =
          package.flights.count g) ∧
      flight ∉ (remove_flight package db transports flight).1.flights ∧
      (remove_flight package db transports flight).2.2.2 =
        (flight.pilots, flight.aircraft) ∧
      (∀ c : Nat, flight.cargo = some c →
        (remove_flight package db transports flight).2.2.1 c = none) ∧
      (∀ c : Nat, flight.cargo ≠ some c →
        (remove_flight package db transports flight).2.2.1 c = transports c) ∧
      (package.flights.erase flight = [] →
        (remove_flight package db transports flight).1.waypoints = none) ∧
      (package.flights.erase flight ≠ [] →
        (remove_flight package db transports flight).1.waypoints = package.waypoints) ∧
      (remove_flight package db transports flight).1.target = package.target ∧
      (remove_flight package db transports flight).1.custom_name = package.custom_name ∧
      (remove_flight package db transports flight).1.time_over_target =
        package.time_over_target := by
  have _hm := hmem
  refine ⟨rfl, ?_, ?_, ?_, rfl, ?_, ?_, ?_, ?_, rfl, rfl, rfl⟩
  · simp [remove_flight, List.count_erase_self]
  · intro g hg
    simp [remove_flight, List.count_erase_of_ne hg]
  · simp only [remove_flight]
    intro hcon
    exact ((hnd.mem_erase_iff).mp hcon).1 rfl
  · intro c hc
    simp [remove_flight, hc]
  · intro c hc
    simp [remove_flight, hc]
  · intro h
    simp [remove_flight, h]
  · intro h
    simp [remove_flight, h, List.isEmpty_iff]

theorem remove_flight_spec_witness :
    (⟨3, FlightType.CAS, 1, [11], 2, some 4, some 600, none⟩ : Flight) ∈
        [(⟨3, FlightType.CAS, 1, [11], 2, some 4, some 600, none⟩ : Flight),
          ⟨8, FlightType.ESCORT, 1, [12], 2, none, none, none⟩] ∧
      ([(⟨3, FlightType.CAS, 1, [11], 2, some 4, some 600, none⟩ : Flight),
          ⟨8, FlightType.ESCORT, 1, [12], 2, none, none, none⟩]).Nodup ∧
      (remove_flight
            ⟨7, some "Alpha", false,
              [⟨3, FlightType.CAS, 1, [11], 2, some 4, some 600, none⟩,
                ⟨8, FlightType.ESCORT, 1, [12], 2, none, none, none⟩], 100, some 1⟩
            [] (fun _ => some 55)
            ⟨3, FlightType.CAS, 1, [11], 2, some 4, some 600, none⟩).1.flights =
        List.erase
          [⟨3, FlightType.CAS, 1, [11], 2, some 4, some 600, none⟩,
            ⟨8, FlightType.ESCORT, 1, [12], 2, none, none, none⟩]
          ⟨3, FlightType.CAS, 1, [11], 2, some 4, some 600, none⟩ :=
  ⟨by decide, by decide,
    (remove_flight_spec
        ⟨7, some "Alpha", false,
          [⟨3, FlightType.CAS, 1, [11], 2, some 4, some 600, none⟩,
            ⟨8, FlightType.ESCORT, 1, [12], 2, none, none, none⟩], 100, some 1⟩
        [] (fun _ => some 55)
        ⟨3, FlightType.CAS, 1, [11], 2, some 4, some 600, none⟩
        (by decide) (by decide)).1⟩

/-- Witness for C2: a non-player coalition whose plan fails. -/
theorem preconditions_met_spec (ctx : PlanningContext) (task : PackagePlanningTask)
    (proposed : List FlightType) (plan_mission_result : Option Package)
    (ato : List Package) (hinit : task.package = none) :
    ((preconditions_met ctx task proposed plan_mission_result).2 = true ↔
        ((preconditions_met ctx task proposed plan_mission_result).1.package).isSome = true) ∧
      (¬(ctx.player = true ∧ ctx.auto_ato_disabled = true) →
        (preconditions_met ctx task proposed plan_mission_result).1.package =
          plan_mission_result) ∧
      (plan_mission_result = none →
        (preconditions_met ctx task proposed plan_mission_result).1.package = none) ∧
      (∀ t : PackagePlanningTask, t.package = none →
        executeTask t ato = .error "Attempted to execute failed package planning task") ∧
      (∀ (t : PackagePlanningTask) (p : Package), t.package = some p →
        executeTask t ato = .ok (ato ++ [p])) := by
  refine ⟨?_, ?_, ?_, ?_, ?_⟩
  · unfold preconditions_met
    split_ifs with h
    · simp [hinit]
    · simp [fulfill_mission]
  · intro h
    unfold preconditions_met
    split_ifs
    simp [fulfill_mission]
  · intro hp
    subst hp
    unfold preconditions_met
    split_ifs
    · exact hinit
    · simp [fulfill_mission]
  · intro t ht
    simp [executeTask, ht]
  · intro t p ht
    simp [executeTask, ht]

theorem preconditions_met_spec_witness :
    (none : Option Package) = none ∧
      ((preconditions_met ⟨false, false⟩ ⟨[], none⟩ [FlightType.CAS] none).2 = true ↔
        ((preconditions_met ⟨false, false⟩ ⟨[], none⟩ [FlightType.CAS] none).1.package).isSome =
          true) :=
  ⟨rfl, (preconditions_met_spec ⟨false, false⟩ ⟨[], none⟩ [FlightType.CAS] none [] rfl).1⟩

theorem find?_first {α : Type} (p : α → Bool) :
    ∀ (l : List α) (a : α), l.find? p = some a →
      ∃ (i : Nat) (hi : i < l.length), l.get ⟨i, hi⟩ = a ∧ p a = true ∧
        ∀ (j : Nat) (hj : j < l.length), j < i → p (l.get ⟨j, hj⟩) = false := by
  intro l
  induction l with
  | nil => intro a h; simp [List.find?] at h
  | cons x rest ih =>
    intro a h
    by_cases hx : p x = true
    · rw [List.find?_cons_of_pos _ hx] at h
      cases h
      exact ⟨0, by simp, rfl, hx, fun j hj hlt => absurd hlt (Nat.not_lt_zero j)⟩
    · have hxf : p x = false := Bool.eq_false_iff.mpr hx
      rw [List.find?_cons_of_neg _ hx] at h
      rcases ih a h with ⟨i, hi, hget, hpa, hearlier⟩
      refine ⟨i + 1, by simpa using Nat.succ_lt_succ hi, hget, hpa, ?_⟩
      intro j hj hlt
      match j with
      | 0 => exact hxf
      | j + 1 =>
        exact hearlier j (by simpa using Nat.lt_of_succ_lt_succ hj) (Nat.lt_of_succ_lt_succ hlt)

/-- Witness for C9: a package with an escort and a strike flight; STRIKE wins
the priority order. -/
theorem primary_task_spec (package : Package) :
    (primary_task package = none ↔ package.flights = []) ∧
      ((∃ t ∈ tasks_by_priority, ∃ g ∈ package.flights, g.flight_type = t) →
        ∃ (t : FlightType) (i : Nat) (hi : i < tasks_by_priority.length),
          primary_task package = some t ∧ tasks_by_priority.get ⟨i, hi⟩ = t ∧
          (∃ g ∈ package.flights, g.flight_type = t) ∧
          (∀ (j : Nat) (hj : j < tasks_by_priority.length), j < i →
            ∀ g ∈ package.flights, g.flight_type ≠ tasks_by_priority.get ⟨j, hj⟩)) ∧
      ((∀ t ∈ tasks_by_priority, ∀ g ∈ package.flights, g.flight_type ≠ t) →
        ∀ (f : Flight) (rest : List Flight), package.flights = f :: rest →
          primary_task package = some f.flight_type) := by
  refine ⟨?_, ?_, ?_⟩
  · cases hfl : package.flights with
    | nil => simp [primary_task, hfl]
    | cons f rest => simp [primary_task, hfl]
  · intro hm
    have hne : package.flights ≠ [] := by
      rcases hm with ⟨t, _, g, hg, _⟩
      intro hcon
      rw [hcon] at hg
      exact List.not_mem_nil g hg
    obtain ⟨f, rest, hfl⟩ := List.exists_cons_of_ne_nil hne
    have hsome : (tasks_by_priority.find?
        (fun task => package.flights.any (fun g => g.flight_type = task))).isSome := by
      rw [List.find?_isSome]
      rcases hm with ⟨t, ht, g, hg, hgt⟩
      exact ⟨t, ht, by simp only [List.any_eq_true, decide_eq_true_eq]; exact ⟨g, hg, hgt⟩⟩
    obtain ⟨a, ha⟩ := Option.isSome_iff_exists.mp hsome
    rcases find?_first _ _ _ ha with ⟨i, hi, hget, hpa, hearlier⟩
    refine ⟨a, i, hi, ?_, hget, ?_, ?_⟩
    · unfold primary_task
      rw [hfl] at ha ⊢
      simp only [ha, Option.getD_some]
    · simpa only [List.any_eq_true, decide_eq_true_eq] using hpa
    · intro j hj hlt g hg
      have h2 := hearlier j hj hlt
      simp only [List.any_eq_false, decide_eq_true_eq] at h2
      exact h2 g hg
  · intro hnone f rest hfl
    have hfind : tasks_by_priority.find?
        (fun task => package.flights.any (fun g => g.flight_type = task)) = none := by
      rw [List.find?_eq_none]
      intro t ht
      simp only [List.any_eq_true, decide_eq_true_eq, not_exists]
      intro g hg
      exact hnone t ht g hg.1 hg.2
    unfold primary_task
    rw [hfl] at hfind ⊢
    simp only [hfind, Option.getD_none]

theorem primary_task_spec_witness :
    (∃ t ∈ tasks_by_priority,
        ∃ g ∈ (⟨7, none, false,
            [⟨1, FlightType.ESCORT, 1, [], 2, none, none, none⟩,
              ⟨2, FlightType.STRIKE, 1, [], 2, none, none, none⟩], 0, none⟩ : Package).flights,
          g.flight_type = t) ∧
      ∃ (t : FlightType) (i : Nat) (hi : i < tasks_by_priority.length),
        primary_task (⟨7, none, false,
            [⟨1, FlightType.ESCORT, 1, [], 2, none, none, none⟩,
              ⟨2, FlightType.STRIKE, 1, [], 2, none, none, none⟩], 0, none⟩ : Package) =
          some t ∧
        tasks_by_priority.get ⟨i, hi⟩ = t ∧
        (∃ g ∈ (⟨7, none, false,
            [⟨1, FlightType.ESCORT, 1, [], 2, none, none, none⟩,
              ⟨2, FlightType.STRIKE, 1, [], 2, none, none, none⟩], 0, none⟩ : Package).flights,
          g.flight_type = t) ∧
        (∀ (j : Nat) (hj : j < tasks_by_priority.length), j < i →
          ∀ g ∈ (⟨7, none, false,
              [⟨1, FlightType.ESCORT, 1, [], 2, none, none, none⟩,
                ⟨2, FlightType.STRIKE, 1, [], 2, none, none, none⟩], 0, none⟩ : Package).flights,
            g.flight_type ≠ tasks_by_priority.get ⟨j, hj⟩) :=
  ⟨⟨FlightType.STRIKE, by decide,
      ⟨2, FlightType.STRIKE, 1, [], 2, none, none, none⟩, by decide, rfl⟩,
    (primary_task_spec (⟨7, none, false,
        [⟨1, FlightType.ESCORT, 1, [], 2, none, none, none⟩,
          ⟨2, FlightType.STRIKE, 1, [], 2, none, none, none⟩], 0, none⟩ : Package)).2.1
      ⟨FlightType.STRIKE, by decide,
        ⟨2, FlightType.STRIKE, 1, [], 2, none, none, none⟩, by decide, rfl⟩⟩

/-- C10: `departure_closest_to_target` raises `RuntimeError` for a package
with no flights, raises `RuntimeError` when no operational airfield close to
the target is the departure airfield of any flight of the package, and
otherwise returns the first operational airfield — in order of increasing
distance to the target, which is the hypothesis `hsorted` on the objective
distance cache's airfield list — that is the departure of some flight of the
package. -/
theorem departure_closest_to_target_spec (operational_airfields : List Nat)
    (package : Package) (dist : Nat → ℚ)
    (hsorted : operational_airfields.Pairwise (fun a b => dist a ≤ dist b)) :
    (package.flights = [] →
        departure_closest_to_target operational_airfields package =
          .error "Cannot determine source airfield for package with no flights") ∧
      (package.flights ≠ [] →
        (∀ a ∈ operational_airfields, ∀ f ∈ package.flights, f.departure ≠ a) →
        departure_closest_to_target operational_airfields package =
          .error "Could not find any airfield assigned to this package") ∧
      (∀ a : Nat, departure_closest_to_target operational_airfields package = .ok a →
        a ∈ operational_airfields ∧ (∃ f ∈ package.flights, f.departure = a) ∧
        ∀ b ∈ operational_airfields, (∃ f ∈ package.flights, f.departure = b) →
          dist a ≤ dist b) := by
  refine ⟨?_, ?_, ?_⟩
  · intro h
    simp [departure_closest_to_target, h]
  · intro hne hno
    have hfind : operational_airfields.find?
        (fun airfield => package.flights.any (fun f => f.departure = airfield)) = none := by
      rw [List.find?_eq_none]
      intro a ha
      simp only [List.any_eq_true, decide_eq_true_eq, not_exists]
      intro f hf
      exact hno a ha f hf.1 hf.2
    simp only [departure_closest_to_target, List.isEmpty_iff, hfind]
    split_ifs with h
    · exact absurd h hne
    · rfl
  · intro a ha
    simp only [departure_closest_to_target, List.isEmpty_iff] at ha
    split_ifs at ha with hfl
    cases hfind : operational_airfields.find?
        (fun airfield => package.flights.any (fun f => f.departure = airfield)) with
    | none =>
      rw [hfind] at ha
      exact Except.noConfusion ha
    | some b =>
      rw [hfind] at ha
      cases ha
      rcases find?_first _ _ _ hfind with ⟨i, hi, hget, hpa, hearlier⟩
      simp only [List.any_eq_true, decide_eq_true_eq] at hpa
      refine ⟨hget ▸ List.get_mem operational_airfields i hi, hpa, ?_⟩
      intro b hb hmatch
      rcases List.mem_iff_get.mp hb with ⟨⟨j, hj⟩, hgetj⟩
      rcases Nat.lt_trichotomy j i with hlt | heq | hgt
      · exfalso
        have h2 := hearlier j hj hlt
        simp only [List.any_eq_true, decide_eq_true_eq] at h2
        rcases hmatch with ⟨f, hf, hfd⟩
        rw [← hgetj] at hfd
        exact Bool.eq_false_iff.mp h2 (by
          exact (List.any_eq_true).mpr ⟨f, hf, by simp [hfd]⟩)
      · exact le_of_eq
          (by rw [← hget, ← hgetj]
              exact congrArg dist (congrArg _ (Fin.ext heq.symm)))
      · have := (List.pairwise_iff_get.mp hsorted) ⟨i, hi⟩ ⟨j, hj⟩ hgt
        rw [hget, hgetj] at this
        exact this

theorem departure_closest_to_target_spec_witness :
    ([10, 20] : List Nat).Pairwise
        (fun a b => (fun n => (n : ℚ)) a ≤ (fun n => (n : ℚ)) b) ∧
      ∀ a : Nat,
        departure_closest_to_target [10, 20]
            ⟨7, none, false, [⟨1, FlightType.CAS, 20, [], 2, none, none, none⟩], 0, none⟩ =
          .ok a →
        a ∈ ([10, 20] : List Nat) ∧
          (∃ f ∈ (⟨7, none, false, [⟨1, FlightType.CAS, 20, [], 2, none, none, none⟩], 0,
              none⟩ : Package).flights, f.departure = a) ∧
          ∀ b ∈ ([10, 20] : List Nat),
            (∃ f ∈ (⟨7, none, false, [⟨1, FlightType.CAS, 20, [], 2, none, none, none⟩], 0,
                none⟩ : Package).flights, f.departure = b) →
            (fun n => (n : ℚ)) a ≤ (fun n => (n : ℚ)) b :=
  ⟨by norm_num,
    (departure_closest_to_target_spec [10, 20]
        ⟨7, none, false, [⟨1, FlightType.CAS, 20, [], 2, none, none, none⟩], 0, none⟩
        (fun n => (n : ℚ)) (by norm_num)).2.2⟩

theorem foldr_max_mem : ∀ (l : List Nat), l ≠ [] → l.foldr max 0 ∈ l := by
  intro l
  induction l with
  | nil => intro h; exact absurd rfl h
  | cons x rest ih =>
    intro _
    cases hr : rest with
    | nil => simp
    | cons y t =>
      subst hr
      rw [List.foldr_cons]
      rcases Nat.le_total ((y :: t).foldr max 0) x with hle | hle
      · rw [Nat.max_eq_left hle]
        exact List.mem_cons_self x (y :: t)
      · rw [Nat.max_eq_right hle]
        exact List.mem_cons_of_mem x (ih (List.cons_ne_nil y t))

theorem foldr_max_le {l : List Nat} {x : Nat} (hx : x ∈ l) : x ≤ l.foldr max 0 := by
  induction l with
  | nil => exact absurd hx (List.not_mem_nil x)
  | cons y rest ih =>
    rw [List.foldr_cons]
    rcases List.mem_cons.mp hx with h | h
    · rw [h]
      exact Nat.le_max_left y (rest.foldr max 0)
    · exact le_trans (ih h) (Nat.le_max_right y (rest.foldr max 0))

/-- Witness for C8: a package with a planless flight and a 600-second flight;
the TOT is 600 seconds plus the buffer after `now`. -/
theorem set_tot_asap_spec (buffer : Nat) (package : Package) (now : Nat) :
    (set_tot_asap buffer package now).time_over_target =
        now + buffer + (package.flights.map (fun f => f.transit_time.getD 0)).foldr max 0 ∧
      (∀ f ∈ package.flights,
        now + buffer + f.transit_time.getD 0 ≤
          (set_tot_asap buffer package now).time_over_target) ∧
      (package.flights ≠ [] →
        ∃ f ∈ package.flights,
          (set_tot_asap buffer package now).time_over_target =
            now + buffer + f.transit_time.getD 0) ∧
      ((∀ f ∈ package.flights, f.transit_time = none) →
        (set_tot_asap buffer package now).time_over_target = now + buffer) ∧
      (set_tot_asap buffer package now).flights = package.flights ∧
      (set_tot_asap buffer package now).target = package.target ∧
      (set_tot_asap buffer package now).custom_name = package.custom_name ∧
      (set_tot_asap buffer package now).waypoints = package.waypoints := by
  refine ⟨rfl, ?_, ?_, ?_, rfl, rfl, rfl, rfl⟩
  · intro f hf
    have hx : f.transit_time.getD 0 ∈ package.flights.map (fun f => f.transit_time.getD 0) :=
      List.mem_map.mpr ⟨f, hf, rfl⟩
    have := foldr_max_le hx
    simp only [set_tot_asap, earliest_tot]
    omega
  · intro hne
    have hmne : package.flights.map (fun f => f.transit_time.getD 0) ≠ [] := by
      simpa using hne
    have hmem := foldr_max_mem _ hmne
    rcases List.mem_map.mp hmem with ⟨f, hf, heq⟩
    exact ⟨f, hf, by simp only [set_tot_asap, earliest_tot]; omega⟩
  · intro hall
    have : package.flights.map (fun f => f.transit_time.getD 0) =
        package.flights.map (fun _ => 0) := List.map_congr_left (fun f hf => by
      rw [hall f hf]; rfl)
    simp only [set_tot_asap, earliest_tot, this]
    have hz : (package.flights.map (fun _ => (0 : Nat))).foldr max 0 = 0 := by
      induction package.flights with
      | nil => rfl
      | cons x rest ih => simpa using ih
    omega

theorem set_tot_asap_spec_witness :
    ((⟨7, none, false,
        [⟨1, FlightType.CAS, 1, [], 2, none, none, none⟩,
          ⟨2, FlightType.ESCORT, 1, [], 2, none, some 600, none⟩], 0, none⟩ : Package).flights ≠
        []) ∧
      ∃ f ∈ (⟨7, none, false,
          [⟨1, FlightType.CAS, 1, [], 2, none, none, none⟩,
            ⟨2, FlightType.ESCORT, 1, [], 2, none, some 600, none⟩], 0, none⟩ : Package).flights,
        (set_tot_asap 300
            ⟨7, none, false,
              [⟨1, FlightType.CAS, 1, [], 2, none, none, none⟩,
                ⟨2, FlightType.ESCORT, 1, [], 2, none, some 600, none⟩], 0, none⟩
            1000).time_over_target = 1000 + 300 + f.transit_time.getD 0 :=
  ⟨by decide,
    (set_tot_asap_spec 300
        ⟨7, none, false,
          [⟨1, FlightType.CAS, 1, [], 2, none, none, none⟩,
            ⟨2, FlightType.ESCORT, 1, [], 2, none, some 600, none⟩], 0, none⟩
        1000).2.2.1 (by decide)⟩

theorem allocList_lists_ne (s0 : Store) (v : List Nat) (r : Nat) (h : r ≠ s0.next) :
    ((allocList s0 v).2).lists r = s0.lists r := by
  simp [allocList, h]

theorem allocList_lists_at (s0 : Store) (v : List Nat) :
    ((allocList s0 v).2).lists s0.next = v := by
  simp [allocList]

theorem allocList_dicts_eq (s0 : Store) (v : List Nat) :
    ((allocList s0 v).2).dicts = s0.dicts := rfl

theorem allocDict_dicts_ne (s0 : Store) (v : List (Nat × Nat)) (r : Nat) (h : r ≠ s0.next) :
    ((allocDict s0 v).2).dicts r = s0.dicts r := by
  simp [allocDict, h]

theorem allocDict_dicts_at (s0 : Store) (v : List (Nat × Nat)) :
    ((allocDict s0 v).2).dicts s0.next = v := by
  simp [allocDict]

theorem allocDict_lists_eq (s0 : Store) (v : List (Nat × Nat)) :
    ((allocDict s0 v).2).lists = s0.lists := rfl

theorem cs1_next (ts : TheaterStateR) (s : Store) : (cs1 ts s).next = s.next + 1 := rfl

theorem cs2_next (ts : TheaterStateR) (s : Store) : (cs2 ts s).next = s.next + 2 := rfl

theorem cs3_next (ts : TheaterStateR) (s : Store) : (cs3 ts s).next = s.next + 3 := rfl

theorem cs4_next (ts : TheaterStateR) (s : Store) : (cs4 ts s).next = s.next + 4 := rfl

theorem cs5_next (ts : TheaterStateR) (s : Store) : (cs5 ts s).next = s.next + 5 := rfl

theorem cs6_next (ts : TheaterStateR) (s : Store) : (cs6 ts s).next = s.next + 6 := rfl

theorem cs7_next (ts : TheaterStateR) (s : Store) : (cs7 ts s).next = s.next + 7 := rfl

theorem cs8_next (ts : TheaterStateR) (s : Store) : (cs8 ts s).next = s.next + 8 := rfl

theorem cs9_next (ts : TheaterStateR) (s : Store) : (cs9 ts s).next = s.next + 9 := rfl

theorem cs10_next (ts : TheaterStateR) (s : Store) : (cs10 ts s).next = s.next + 10 := rfl

theorem cs11_next (ts : TheaterStateR) (s : Store) : (cs11 ts s).next = s.next + 11 := rfl

theorem cs12_next (ts : TheaterStateR) (s : Store) : (cs12 ts s).next = s.next + 12 := rfl

theorem cs13_next (ts : TheaterStateR) (s : Store) : (cs13 ts s).next = s.next + 13 := rfl

theorem cs14_next (ts : TheaterStateR) (s : Store) : (cs14 ts s).next = s.next + 14 := rfl

theorem cs15_next (ts : TheaterStateR) (s : Store) : (cs15 ts s).next = s.next + 15 := rfl

theorem cs1_lists_old (ts : TheaterStateR) (s : Store) (r : Nat) (_h : r < s.next) :
    (cs1 ts s).lists r = s.lists r := by
  unfold cs1
  rw [allocDict_lists_eq]

theorem cs1_dicts_old (ts : TheaterStateR) (s : Store) (r : Nat) (h : r < s.next) :
    (cs1 ts s).dicts r = s.dicts r := by
  unfold cs1
  rw [allocDict_dicts_ne _ _ _ (by omega)]

theorem cs2_lists_old (ts : TheaterStateR) (s : Store) (r : Nat) (h : r < s.next) :
    (cs2 ts s).lists r = s.lists r := by
  unfold cs2
  rw [allocList_lists_ne _ _ _ (by rw [cs1_next]; omega)]
  exact cs1_lists_old ts s r h

theorem cs2_dicts_old (ts : TheaterStateR) (s : Store) (r : Nat) (h : r < s.next) :
    (cs2 ts s).dicts r = s.dicts r := by
  unfold cs2
  rw [allocList_dicts_eq]
  exact cs1_dicts_old ts s r h

theorem cs3_lists_old (ts : TheaterStateR) (s : Store) (r : Nat) (h : r < s.next) :
    (cs3 ts s).lists r = s.lists r := by
  unfold cs3
  rw [allocDict_lists_eq]
  exact cs2_lists_old ts s r h

theorem cs3_dicts_old (ts : TheaterStateR) (s : Store) (r : Nat) (h : r < s.next) :
    (cs3 ts s).dicts r = s.dicts r := by
  unfold cs3
  rw [allocDict_dicts_ne _ _ _ (by rw [cs2_next]; omega)]
  exact cs2_dicts_old ts s r h

theorem cs4_lists_old (ts : TheaterStateR) (s : Store) (r : Nat) (h : r < s.next) :
    (cs4 ts s).lists r = s.lists r := by
  unfold cs4
  rw [allocList_lists_ne _ _ _ (by rw [cs3_next]; omega)]
  exact cs3_lists_old ts s r h

theorem cs4_dicts_old (ts : TheaterStateR) (s : Store) (r : Nat) (h : r < s.next) :
    (cs4 ts s).dicts r = s.dicts r := by
  unfold cs4
  rw [allocList_dicts_eq]
  exact cs3_dicts_old ts s r h

theorem cs5_lists_old (ts : TheaterStateR) (s : Store) (r : Nat) (h : r < s.next) :
    (cs5 ts s).lists r = s.lists r := by
  unfold cs5
  rw [allocList_lists_ne _ _ _ (by rw [cs4_next]; omega)]
  exact cs4_lists_old ts s r h

theorem cs5_dicts_old (ts : TheaterStateR) (s : Store) (r : Nat) (h : r < s.next) :
    (cs5 ts s).dicts r = s.dicts r := by
  unfold cs5
  rw [allocList_dicts_eq]
  exact cs4_dicts_old ts s r h

theorem cs6_lists_old (ts : TheaterStateR) (s : Store) (r : Nat) (h : r < s.next) :
    (cs6 ts s).lists r = s.lists r := by
  unfold cs6
  rw [allocList_lists_ne _ _ _ (by rw [cs5_next]; omega)]
  exact cs5_lists_old ts s r h

theorem cs6_dicts_old (ts : TheaterStateR) (s : Store) (r : Nat) (h : r < s.next) :
    (cs6 ts s).dicts r = s.dicts r := by
  unfold cs6
  rw [allocList_dicts_eq]
  exact cs5_dicts_old ts s r h

theorem cs7_lists_old (ts : TheaterStateR) (s : Store) (r : Nat) (h : r < s.next) :
    (cs7 ts s).lists r = s.lists r := by
  unfold cs7
  rw [allocDict_lists_eq]
  exact cs6_lists_old ts s r h

theorem cs7_dicts_old (ts : TheaterStateR) (s : Store) (r : Nat) (h : r < s.next) :
    (cs7 ts s).dicts r = s.dicts r := by
  unfold cs7
  rw [allocDict_dicts_ne _ _ _ (by rw [cs6_next]; omega)]
  exact cs6_dicts_old ts s r h

theorem cs8_lists_old (ts : TheaterStateR) (s : Store) (r : Nat) (h : r < s.next) :
    (cs8 ts s).lists r = s.lists r := by
  unfold cs8
  rw [allocList_lists_ne _ _ _ (by rw [cs7_next]; omega)]
  exact cs7_lists_old ts s r h

theorem cs8_dicts_old (ts : TheaterStateR) (s : Store) (r : Nat) (h : r < s.next) :
    (cs8 ts s).dicts r = s.dicts r := by
  unfold cs8
  rw [allocList_dicts_eq]
  exact cs7_dicts_old ts s r h

theorem cs9_lists_old (ts : TheaterStateR) (s : Store) (r : Nat) (h : r < s.next) :
    (cs9 ts s).lists r = s.lists r := by
  unfold cs9
  rw [allocList_lists_ne _ _ _ (by rw [cs8_next]; omega)]
  exact cs8_lists_old ts s r h

theorem cs9_dicts_old (ts : TheaterStateR) (s : Store) (r : Nat) (h : r < s.next) :
    (cs9 ts s).dicts r = s.dicts r := by
  unfold cs9
  rw [allocList_dicts_eq]
  exact cs8_dicts_old ts s r h

theorem cs10_lists_old (ts : TheaterStateR) (s : Store) (r : Nat) (h : r < s.next) :
    (cs10 ts s).lists r = s.lists r := by
  unfold cs10
  rw [allocList_lists_ne _ _ _ (by rw [cs9_next]; omega)]
  exact cs9_lists_old ts s r h

theorem cs10_dicts_old (ts : TheaterStateR) (s : Store) (r : Nat) (h : r < s.next) :
    (cs10 ts s).dicts r = s.dicts r := by
  unfold cs10
  rw [allocList_dicts_eq]
  exact cs9_dicts_old ts s r h

theorem cs11_lists_old (ts : TheaterStateR) (s : Store) (r : Nat) (h : r < s.next) :
    (cs11 ts s).lists r = s.lists r := by
  unfold cs11
  rw [allocList_lists_ne _ _ _ (by rw [cs10_next]; omega)]
  exact cs10_lists_old ts s r h

theorem cs11_dicts_old (ts : TheaterStateR) (s : Store) (r : Nat) (h : r < s.next) :
    (cs11 ts s).dicts r = s.dicts r := by
  unfold cs11
  rw [allocList_dicts_eq]
  exact cs10_dicts_old ts s r h

theorem cs12_lists_old (ts : TheaterStateR) (s : Store) (r : Nat) (h : r < s.next) :
    (cs12 ts s).lists r = s.lists r := by
  unfold cs12
  rw [allocDict_lists_eq]
  exact cs11_lists_old ts s r h

theorem cs12_dicts_old (ts : TheaterStateR) (s : Store) (r : Nat) (h : r < s.next) :
    (cs12 ts s).dicts r = s.dicts r := by
  unfold cs12
  rw [allocDict_dicts_ne _ _ _ (by rw [cs11_next]; omega)]
  exact cs11_dicts_old ts s r h

theorem cs13_lists_old (ts : TheaterStateR) (s : Store) (r : Nat) (h : r < s.next) :
    (cs13 ts s).lists r = s.lists r := by
  unfold cs13
  rw [allocList_lists_ne _ _ _ (by rw [cs12_next]; omega)]
  exact cs12_lists_old ts s r h

theorem cs13_dicts_old (ts : TheaterStateR) (s : Store) (r : Nat) (h : r < s.next) :
    (cs13 ts s).dicts r = s.dicts r := by
  unfold cs13
  rw [allocList_dicts_eq]
  exact cs12_dicts_old ts s r h

theorem cs14_lists_old (ts : TheaterStateR) (s : Store) (r : Nat) (h : r < s.next) :
    (cs14 ts s).lists r = s.lists r := by
  unfold cs14
  rw [allocList_lists_ne _ _ _ (by rw [cs13_next]; omega)]
  exact cs13_lists_old ts s r h

theorem cs14_dicts_old (ts : TheaterStateR) (s : Store) (r : Nat) (h : r < s.next) :
    (cs14 ts s).dicts r = s.dicts r := by
  unfold cs14
  rw [allocList_dicts_eq]
  exact cs13_dicts_old ts s r h

theorem cs15_lists_old (ts : TheaterStateR) (s : Store) (r : Nat) (h : r < s.next) :
    (cs15 ts s).lists r = s.lists r := by
  unfold cs15
  rw [allocList_lists_ne _ _ _ (by rw [cs14_next]; omega)]
  exact cs14_lists_old ts s r h

theorem cs15_dicts_old (ts : TheaterStateR) (s : Store) (r : Nat) (h : r < s.next) :
    (cs15 ts s).dicts r = s.dicts r := by
  unfold cs15
  rw [allocList_dicts_eq]
  exact cs14_dicts_old ts s r h

theorem clone_val_barcaps_needed (ts : TheaterStateR) (s : Store) :
    (cs15 ts s).dicts (s.next) = s.dicts ts.barcaps_needed := by
  unfold cs15
  rw [allocList_dicts_eq]
  unfold cs14
  rw [allocList_dicts_eq]
  unfold cs13
  rw [allocList_dicts_eq]
  unfold cs12
  rw [allocDict_dicts_ne _ _ _ (by rw [cs11_next]; omega)]
  unfold cs11
  rw [allocList_dicts_eq]
  unfold cs10
  rw [allocList_dicts_eq]
  unfold cs9
  rw [allocList_dicts_eq]
  unfold cs8
  rw [allocList_dicts_eq]
  unfold cs7
  rw [allocDict_dicts_ne _ _ _ (by rw [cs6_next]; omega)]
  unfold cs6
  rw [allocList_dicts_eq]
  unfold cs5
  rw [allocList_dicts_eq]
  unfold cs4
  rw [allocList_dicts_eq]
  unfold cs3
  rw [allocDict_dicts_ne _ _ _ (by rw [cs2_next]; omega)]
  unfold cs2
  rw [allocList_dicts_eq]
  unfold cs1
  rw [allocDict_dicts_at]

theorem clone_val_active_front_lines (ts : TheaterStateR) (s : Store) (h : ts.active_front_lines < s.next) :
    (cs15 ts s).lists (s.next + 1) = s.lists ts.active_front_lines := by
  unfold cs15
  rw [allocList_lists_ne _ _ _ (by rw [cs14_next]; omega)]
  unfold cs14
  rw [allocList_lists_ne _ _ _ (by rw [cs13_next]; omega)]
  unfold cs13
  rw [allocList_lists_ne _ _ _ (by rw [cs12_next]; omega)]
  unfold cs12
  rw [allocDict_lists_eq]
  unfold cs11
  rw [allocList_lists_ne _ _ _ (by rw [cs10_next]; omega)]
  unfold cs10
  rw [allocList_lists_ne _ _ _ (by rw [cs9_next]; omega)]
  unfold cs9
  rw [allocList_lists_ne _ _ _ (by rw [cs8_next]; omega)]
  unfold cs8
  rw [allocList_lists_ne _ _ _ (by rw [cs7_next]; omega)]
  unfold cs7
  rw [allocDict_lists_eq]
  unfold cs6
  rw [allocList_lists_ne _ _ _ (by rw [cs5_next]; omega)]
  unfold cs5
  rw [allocList_lists_ne _ _ _ (by rw [cs4_next]; omega)]
  unfold cs4
  rw [allocList_lists_ne _ _ _ (by rw [cs3_next]; omega)]
  unfold cs3
  rw [allocDict_lists_eq]
  unfold cs2
  rw [show s.next + 1 = (cs1 ts s).next from (cs1_next ts s).symm]
  rw [allocList_lists_at]
  exact cs1_lists_old ts s _ h

theorem clone_val_front_line_stances (ts : TheaterStateR) (s : Store) (h : ts.front_line_stances < s.next) :
    (cs15 ts s).dicts (s.next + 2) = s.dicts ts.front_line_stances := by
  unfold cs15
  rw [allocList_dicts_eq]
  unfold cs14
  rw [allocList_dicts_eq]
  unfold cs13
  rw [allocList_dicts_eq]
  unfold cs12
  rw [allocDict_dicts_ne _ _ _ (by rw [cs11_next]; omega)]
  unfold cs11
  rw [allocList_dicts_eq]
  unfold cs10
  rw [allocList_dicts_eq]
  unfold cs9
  rw [allocList_dicts_eq]
  unfold cs8
  rw [allocList_dicts_eq]
  unfold cs7
  rw [allocDict_dicts_ne _ _ _ (by rw [cs6_next]; omega)]
  unfold cs6
  rw [allocList_dicts_eq]
  unfold cs5
  rw [allocList_dicts_eq]
  unfold cs4
  rw [allocList_dicts_eq]
  unfold cs3
  rw [show s.next + 2 = (cs2 ts s).next from (cs2_next ts s).symm]
  rw [allocDict_dicts_at]
  exact cs2_dicts_old ts s _ h

theorem clone_val_vulnerable_front_lines (ts : TheaterStateR) (s : Store) (h : ts.vulnerable_front_lines < s.next) :
    (cs15 ts s).lists (s.next + 3) = s.lists ts.vulnerable_front_lines := by
  unfold cs15
  rw [allocList_lists_ne _ _ _ (by rw [cs14_next]; omega)]
  unfold cs14
  rw [allocList_lists_ne _ _ _ (by rw [cs13_next]; omega)]
  unfold cs13
  rw [allocList_lists_ne _ _ _ (by rw [cs12_next]; omega)]
  unfold cs12
  rw [allocDict_lists_eq]
  unfold cs11
  rw [allocList_lists_ne _ _ _ (by rw [cs10_next]; omega)]
  unfold cs10
  rw [allocList_lists_ne _ _ _ (by rw [cs9_next]; omega)]
  unfold cs9
  rw [allocList_lists_ne _ _ _ (by rw [cs8_next]; omega)]
  unfold cs8
  rw [allocList_lists_ne _ _ _ (by rw [cs7_next]; omega)]
  unfold cs7
  rw [allocDict_lists_eq]
  unfold cs6
  rw [allocList_lists_ne _ _ _ (by rw [cs5_next]; omega)]
  unfold cs5
  rw [allocList_lists_ne _ _ _ (by rw [cs4_next]; omega)]
  unfold cs4
  rw [show s.next + 3 = (cs3 ts s).next from (cs3_next ts s).symm]
  rw [allocList_lists_at]
  exact cs3_lists_old ts s _ h

theorem clone_val_aewc_targets (ts : TheaterStateR) (s : Store) (h : ts.aewc_targets < s.next) :
    (cs15 ts s).lists (s.next + 4) = s.lists ts.aewc_targets := by
  unfold cs15
  rw [allocList_lists_ne _ _ _ (by rw [cs14_next]; omega)]
  unfold cs14
  rw [allocList_lists_ne _ _ _ (by rw [cs13_next]; omega)]
  unfold cs13
  rw [allocList_lists_ne _ _ _ (by rw [cs12_next]; omega)]
  unfold cs12
  rw [allocDict_lists_eq]
  unfold cs11
  rw [allocList_lists_ne _ _ _ (by rw [cs10_next]; omega)]
  unfold cs10
  rw [allocList_lists_ne _ _ _ (by rw [cs9_next]; omega)]
  unfold cs9
  rw [allocList_lists_ne _ _ _ (by rw [cs8_next]; omega)]
  unfold cs8
  rw [allocList_lists_ne _ _ _ (by rw [cs7_next]; omega)]
  unfold cs7
  rw [allocDict_lists_eq]
  unfold cs6
  rw [allocList_lists_ne _ _ _ (by rw [cs5_next]; omega)]
  unfold cs5
  rw [show s.next + 4 = (cs4 ts s).next from (cs4_next ts s).symm]
  rw [allocList_lists_at]
  exact cs4_lists_old ts s _ h

theorem clone_val_refueling_targets (ts : TheaterStateR) (s : Store) (h : ts.refueling_targets < s.next) :
    (cs15 ts s).lists (s.next + 5) = s.lists ts.refueling_targets := by
  unfold cs15
  rw [allocList_lists_ne _ _ _ (by rw [cs14_next]; omega)]
  unfold cs14
  rw [allocList_lists_ne _ _ _ (by rw [cs13_next]; omega)]
  unfold cs13
  rw [allocList_lists_ne _ _ _ (by rw [cs12_next]; omega)]
  unfold cs12
  rw [allocDict_lists_eq]
  unfold cs11
  rw [allocList_lists_ne _ _ _ (by rw [cs10_next]; omega)]
  unfold cs10
  rw [allocList_lists_ne _ _ _ (by rw [cs9_next]; omega)]
  unfold cs9
  rw [allocList_lists_ne _ _ _ (by rw [cs8_next]; omega)]
  unfold cs8
  rw [allocList_lists_ne _ _ _ (by rw [cs7_next]; omega)]
  unfold cs7
  rw [allocDict_lists_eq]
  unfold cs6
  rw [show s.next + 5 = (cs5 ts s).next from (cs5_next ts s).symm]
  rw [allocList_lists_at]
  exact cs5_lists_old ts s _ h

theorem clone_val_recovery_targets (ts : TheaterStateR) (s : Store) (h : ts.recovery_targets < s.next) :
    (cs15 ts s).dicts (s.next + 6) = s.dicts ts.recovery_targets := by
  unfold cs15
  rw [allocList_dicts_eq]
  unfold cs14
  rw [allocList_dicts_eq]
  unfold cs13
  rw [allocList_dicts_eq]
  unfold cs12
  rw [allocDict_dicts_ne _ _ _ (by rw [cs11_next]; omega)]
  unfold cs11
  rw [allocList_dicts_eq]
  unfold cs10
  rw [allocList_dicts_eq]
  unfold cs9
  rw [allocList_dicts_eq]
  unfold cs8
  rw [allocList_dicts_eq]
  unfold cs7
  rw [show s.next + 6 = (cs6 ts s).next from (cs6_next ts s).symm]
  rw [allocDict_dicts_at]
  exact cs6_dicts_old ts s _ h

theorem clone_val_enemy_air_defenses (ts : TheaterStateR) (s : Store) (h : ts.enemy_air_defenses < s.next) :
    (cs15 ts s).lists (s.next + 7) = s.lists ts.enemy_air_defenses := by
  unfold cs15
  rw [allocList_lists_ne _ _ _ (by rw [cs14_next]; omega)]
  unfold cs14
  rw [allocList_lists_ne _ _ _ (by rw [cs13_next]; omega)]
  unfold cs13
  rw [allocList_lists_ne _ _ _ (by rw [cs12_next]; omega)]
  unfold cs12
  rw [allocDict_lists_eq]
  unfold cs11
  rw [allocList_lists_ne _ _ _ (by rw [cs10_next]; omega)]
  unfold cs10
  rw [allocList_lists_ne _ _ _ (by rw [cs9_next]; omega)]
  unfold cs9
  rw [allocList_lists_ne _ _ _ (by rw [cs8_next]; omega)]
  unfold cs8
  rw [show s.next + 7 = (cs7 ts s).next from (cs7_next ts s).symm]
  rw [allocList_lists_at]
  exact cs7_lists_old ts s _ h

theorem clone_val_enemy_convoys (ts : TheaterStateR) (s : Store) (h : ts.enemy_convoys < s.next) :
    (cs15 ts s).lists (s.next + 8) = s.lists ts.enemy_convoys := by
  unfold cs15
  rw [allocList_lists_ne _ _ _ (by rw [cs14_next]; omega)]
  unfold cs14
  rw [allocList_lists_ne _ _ _ (by rw [cs13_next]; omega)]
  unfold cs13
  rw [allocList_lists_ne _ _ _ (by rw [cs12_next]; omega)]
  unfold cs12
  rw [allocDict_lists_eq]
  unfold cs11
  rw [allocList_lists_ne _ _ _ (by rw [cs10_next]; omega)]
  unfold cs10
  rw [allocList_lists_ne _ _ _ (by rw [cs9_next]; omega)]
  unfold cs9
  rw [show s.next + 8 = (cs8 ts s).next from (cs8_next ts s).symm]
  rw [allocList_lists_at]
  exact cs8_lists_old ts s _ h

theorem clone_val_enemy_shipping (ts : TheaterStateR) (s : Store) (h : ts.enemy_shipping < s.next) :
    (cs15 ts s).lists (s.next + 9) = s.lists ts.enemy_shipping := by
  unfold cs15
  rw [allocList_lists_ne _ _ _ (by rw [cs14_next]; omega)]
  unfold cs14
  rw [allocList_lists_ne _ _ _ (by rw [cs13_next]; omega)]
  unfold cs13
  rw [allocList_lists_ne _ _ _ (by rw [cs12_next]; omega)]
  unfold cs12
  rw [allocDict_lists_eq]
  unfold cs11
  rw [allocList_lists_ne _ _ _ (by rw [cs10_next]; omega)]
  unfold cs10
  rw [show s.next + 9 = (cs9 ts s).next from (cs9_next ts s).symm]
  rw [allocList_lists_at]
  exact cs9_lists_old ts s _ h

theorem clone_val_enemy_ships (ts : TheaterStateR) (s : Store) (h : ts.enemy_ships < s.next) :
    (cs15 ts s).lists (s.next + 10) = s.lists ts.enemy_ships := by
  unfold cs15
  rw [allocList_lists_ne _ _ _ (by rw [cs14_next]; omega)]
  unfold cs14
  rw [allocList_lists_ne _ _ _ (by rw [cs13_next]; omega)]
  unfold cs13
  rw [allocList_lists_ne _ _ _ (by rw [cs12_next]; omega)]
  unfold cs12
  rw [allocDict_lists_eq]
  unfold cs11
  rw [show s.next + 10 = (cs10 ts s).next from (cs10_next ts s).symm]
  rw [allocList_lists_at]
  exact cs10_lists_old ts s _ h

theorem clone_val_enemy_battle_positions (ts : TheaterStateR) (s : Store) (h : ts.enemy_battle_positions < s.next) :
    (cs15 ts s).dicts (s.next + 11) = s.dicts ts.enemy_battle_positions := by
  unfold cs15
  rw [allocList_dicts_eq]
  unfold cs14
  rw [allocList_dicts_eq]
  unfold cs13
  rw [allocList_dicts_eq]
  unfold cs12
  rw [show s.next + 11 = (cs11 ts s).next from (cs11_next ts s).symm]
  rw [allocDict_dicts_at]
  exact cs11_dicts_old ts s _ h

theorem clone_val_oca_targets (ts : TheaterStateR) (s : Store) (h : ts.oca_targets < s.next) :
    (cs15 ts s).lists (s.next + 12) = s.lists ts.oca_targets := by
  unfold cs15
  rw [allocList_lists_ne _ _ _ (by rw [cs14_next]; omega)]
  unfold cs14
  rw [allocList_lists_ne _ _ _ (by rw [cs13_next]; omega)]
  unfold cs13
  rw [show s.next + 12 = (cs12 ts s).next from (cs12_next ts s).symm]
  rw [allocList_lists_at]
  exact cs12_lists_old ts s _ h

theorem clone_val_strike_targets (ts : TheaterStateR) (s : Store) (h : ts.strike_targets < s.next) :
    (cs15 ts s).lists (s.next + 13) = s.lists ts.strike_targets := by
  unfold cs15
  rw [allocList_lists_ne _ _ _ (by rw [cs14_next]; omega)]
  unfold cs14
  rw [show s.next + 13 = (cs13 ts s).next from (cs13_next ts s).symm]
  rw [allocList_lists_at]
  exact cs13_lists_old ts s _ h

theorem clone_val_enemy_barcaps (ts : TheaterStateR) (s : Store) (h : ts.enemy_barcaps < s.next) :
    (cs15 ts s).lists (s.next + 14) = s.lists ts.enemy_barcaps := by
  unfold cs15
  rw [show s.next + 14 = (cs14 ts s).next from (cs14_next ts s).symm]
  rw [allocList_lists_at]
  exact cs14_lists_old ts s _ h

/-- Witness for C3: a store of nineteen live collections; the clone's
`barcaps_needed` is a fresh reference distinct from the original's. -/
theorem theater_state_clone_spec (ts : TheaterStateR) (s : Store)
    (hwf : wfTheaterStore ts s) :
    ((TheaterStateR.clone ts s).1.context = ts.context ∧
        (TheaterStateR.clone ts s).1.threat_zones = ts.threat_zones ∧
        (TheaterStateR.clone ts s).1.priority_cp = ts.priority_cp ∧
        (TheaterStateR.clone ts s).1.threatening_air_defenses =
          ts.threatening_air_defenses ∧
        (TheaterStateR.clone ts s).1.detecting_air_defenses = ts.detecting_air_defenses ∧
        (TheaterStateR.clone ts s).1.vulnerable_control_points =
          ts.vulnerable_control_points ∧
        (TheaterStateR.clone ts s).1.control_point_priority_queue =
          ts.control_point_priority_queue) ∧
      ((TheaterStateR.clone ts s).2.dicts (TheaterStateR.clone ts s).1.barcaps_needed =
          s.dicts ts.barcaps_needed ∧
        (TheaterStateR.clone ts s).2.lists (TheaterStateR.clone ts s).1.active_front_lines =
          s.lists ts.active_front_lines ∧
        (TheaterStateR.clone ts s).2.dicts (TheaterStateR.clone ts s).1.front_line_stances =
          s.dicts ts.front_line_stances ∧
        (TheaterStateR.clone ts s).2.lists
            (TheaterStateR.clone ts s).1.vulnerable_front_lines =
          s.lists ts.vulnerable_front_lines ∧
        (TheaterStateR.clone ts s).2.lists (TheaterStateR.clone ts s).1.aewc_targets =
          s.lists ts.aewc_targets ∧
        (TheaterStateR.clone ts s).2.lists (TheaterStateR.clone ts s).1.refueling_targets =
          s.lists ts.refueling_targets ∧
        (TheaterStateR.clone ts s).2.dicts (TheaterStateR.clone ts s).1.recovery_targets =
          s.dicts ts.recovery_targets ∧
        (TheaterStateR.clone ts s).2.lists (TheaterStateR.clone ts s).1.enemy_air_defenses =
          s.lists ts.enemy_air_defenses ∧
        (TheaterStateR.clone ts s).2.lists (TheaterStateR.clone ts s).1.enemy_convoys =
          s.lists ts.enemy_convoys ∧
        (TheaterStateR.clone ts s).2.lists (TheaterStateR.clone ts s).1.enemy_shipping =
          s.lists ts.enemy_shipping ∧
        (TheaterStateR.clone ts s).2.lists (TheaterStateR.clone ts s).1.enemy_ships =
          s.lists ts.enemy_ships ∧
        (TheaterStateR.clone ts s).2.dicts
            (TheaterStateR.clone ts s).1.enemy_battle_positions =
          s.dicts ts.enemy_battle_positions ∧
        (TheaterStateR.clone ts s).2.lists (TheaterStateR.clone ts s).1.oca_targets =
          s.lists ts.oca_targets ∧
        (TheaterStateR.clone ts s).2.lists (TheaterStateR.clone ts s).1.strike_targets =
          s.lists ts.strike_targets ∧
        (TheaterStateR.clone ts s).2.lists (TheaterStateR.clone ts s).1.enemy_barcaps =
          s.lists ts.enemy_barcaps) ∧
      (∀ r : Nat, r < s.next →
        (TheaterStateR.clone ts s).2.lists r = s.lists r ∧
          (TheaterStateR.clone ts s).2.dicts r = s.dicts r) ∧
      ((TheaterStateR.clone ts s).1.barcaps_needed ≠ ts.barcaps_needed ∧
        (TheaterStateR.clone ts s).1.active_front_lines ≠ ts.active_front_lines ∧
        (TheaterStateR.clone ts s).1.enemy_air_defenses ≠ ts.enemy_air_defenses ∧
        (TheaterStateR.clone ts s).1.enemy_ships ≠ ts.enemy_ships ∧
        (TheaterStateR.clone ts s).1.oca_targets ≠ ts.oca_targets ∧
        (TheaterStateR.clone ts s).1.strike_targets ≠ ts.strike_targets) ∧
      (∀ v : List Nat,
        (setList (TheaterStateR.clone ts s).2
              (TheaterStateR.clone ts s).1.active_front_lines v).lists
            ts.active_front_lines = s.lists ts.active_front_lines ∧
          (setList (TheaterStateR.clone ts s).2
              (TheaterStateR.clone ts s).1.enemy_air_defenses v).lists
            ts.enemy_air_defenses = s.lists ts.enemy_air_defenses ∧
          (setList (TheaterStateR.clone ts s).2
              (TheaterStateR.clone ts s).1.enemy_ships v).lists
            ts.enemy_ships = s.lists ts.enemy_ships ∧
          (setList (TheaterStateR.clone ts s).2
              (TheaterStateR.clone ts s).1.oca_targets v).lists
            ts.oca_targets = s.lists ts.oca_targets ∧
          (setList (TheaterStateR.clone ts s).2
              (TheaterStateR.clone ts s).1.strike_targets v).lists
            ts.strike_targets = s.lists ts.strike_targets) ∧
      (∀ d : List (Nat × Nat),
        (setDict (TheaterStateR.clone ts s).2
              (TheaterStateR.clone ts s).1.barcaps_needed d).dicts
            ts.barcaps_needed = s.dicts ts.barcaps_needed) := by
  obtain ⟨h1, h2, h3, h4, h5, h6, h7, h8, h9, h10, h11, h12, h13, h14, h15⟩ := hwf
  have e1 : (TheaterStateR.clone ts s).1.barcaps_needed = s.next := rfl
  have e2 : (TheaterStateR.clone ts s).1.active_front_lines = s.next + 1 := cs1_next ts s
  have e8 : (TheaterStateR.clone ts s).1.enemy_air_defenses = s.next + 7 := cs7_next ts s
  have e11 : (TheaterStateR.clone ts s).1.enemy_ships = s.next + 10 := cs10_next ts s
  have e13 : (TheaterStateR.clone ts s).1.oca_targets = s.next + 12 := cs12_next ts s
  have e14 : (TheaterStateR.clone ts s).1.strike_targets = s.next + 13 := cs13_next ts s
  refine ⟨⟨rfl, rfl, rfl, rfl, rfl, rfl, rfl⟩,
    ⟨clone_val_barcaps_needed ts s, clone_val_active_front_lines ts s h2,
      clone_val_front_line_stances ts s h3, clone_val_vulnerable_front_lines ts s h4,
      clone_val_aewc_targets ts s h5, clone_val_refueling_targets ts s h6,
      clone_val_recovery_targets ts s h7, clone_val_enemy_air_defenses ts s h8,
      clone_val_enemy_convoys ts s h9, clone_val_enemy_shipping ts s h10,
      clone_val_enemy_ships ts s h11, clone_val_enemy_battle_positions ts s h12,
      clone_val_oca_targets ts s h13, clone_val_strike_targets ts s h14,
      clone_val_enemy_barcaps ts s h15⟩,
    fun r hr => ⟨cs15_lists_old ts s r hr, cs15_dicts_old ts s r hr⟩,
    ⟨by rw [e1]; omega, by rw [e2]; omega, by rw [e8]; omega, by rw [e11]; omega,
      by rw [e13]; omega, by rw [e14]; omega⟩,
    ?_, ?_⟩
  · intro v
    refine ⟨?_, ?_, ?_, ?_, ?_⟩
    · show (if ts.active_front_lines = (TheaterStateR.clone ts s).1.active_front_lines
          then v else (TheaterStateR.clone ts s).2.lists ts.active_front_lines) =
        s.lists ts.active_front_lines
      rw [if_neg (by rw [e2]; omega)]
      exact cs15_lists_old ts s _ h2
    · show (if ts.enemy_air_defenses = (TheaterStateR.clone ts s).1.enemy_air_defenses
          then v else (TheaterStateR.clone ts s).2.lists ts.enemy_air_defenses) =
        s.lists ts.enemy_air_defenses
      rw [if_neg (by rw [e8]; omega)]
      exact cs15_lists_old ts s _ h8
    · show (if ts.enemy_ships = (TheaterStateR.clone ts s).1.enemy_ships
          then v else (TheaterStateR.clone ts s).2.lists ts.enemy_ships) =
        s.lists ts.enemy_ships
      rw [if_neg (by rw [e11]; omega)]
      exact cs15_lists_old ts s _ h11
    · show (if ts.oca_targets = (TheaterStateR.clone ts s).1.oca_targets
          then v else (TheaterStateR.clone ts s).2.lists ts.oca_targets) =
        s.lists ts.oca_targets
      rw [if_neg (by rw [e13]; omega)]
      exact cs15_lists_old ts s _ h13
    · show (if ts.strike_targets = (TheaterStateR.clone ts s).1.strike_targets
          then v else (TheaterStateR.clone ts s).2.lists ts.strike_targets) =
        s.lists ts.strike_targets
      rw [if_neg (by rw [e14]; omega)]
      exact cs15_lists_old ts s _ h14
  · intro d
    show (if ts.barcaps_needed = (TheaterStateR.clone ts s).1.barcaps_needed
          then d else (TheaterStateR.clone ts s).2.dicts ts.barcaps_needed) =
        s.dicts ts.barcaps_needed
    rw [if_neg (by rw [e1]; omega)]
    exact cs15_dicts_old ts s _ h1

theorem theater_state_clone_spec_witness :
    wfTheaterStore
        ⟨100, 0, 1, 2, 3, 4, 5, 6, 7, 8, 9, 10, 11, 12, 13, 14, 15, 16, 200, 17, 18, none⟩
        ⟨fun r => [r], fun r => [(r, 0)], 19⟩ ∧
      (TheaterStateR.clone
            ⟨100, 0, 1, 2, 3, 4, 5, 6, 7, 8, 9, 10, 11, 12, 13, 14, 15, 16, 200, 17, 18,
              none⟩
            ⟨fun r => [r], fun r => [(r, 0)], 19⟩).1.barcaps_needed ≠
        (⟨100, 0, 1, 2, 3, 4, 5, 6, 7, 8, 9, 10, 11, 12, 13, 14, 15, 16, 200, 17, 18,
            none⟩ : TheaterStateR).barcaps_needed :=
  ⟨by unfold wfTheaterStore; decide,
    (theater_state_clone_spec
        ⟨100, 0, 1, 2, 3, 4, 5, 6, 7, 8, 9, 10, 11, 12, 13, 14, 15, 16, 200, 17, 18, none⟩
        ⟨fun r => [r], fun r => [(r, 0)], 19⟩
        (by unfold wfTheaterStore; decide)).2.2.2.1.1⟩
